import Mathlib

/-!
Verification development for the `dragonkick` command-line tool
(`dragonkick/main.py`).

The program is an orchestrator: all binary loading, analysis and
decompilation is delegated to external libraries (`cle`, `pyghidra`, the
Ghidra API, `git`, `zipfile`).  The shallow embedding below translates the
repository's own code — path manipulation, the `ResolveWithRoot` symlink
chaser, `ZipProject`, the target-collection and dependency loops of `main`,
and `main`'s exit-code control flow — into pure Lean functions.  Every
interaction with the outside world (filesystem queries, `glob`,
`cle.Loader`, `pyghidra.start`, `pyghidra.open_program`, environment
variables) is an oracle recorded in an `Env` structure; side effects
(logging, directory creation, file removal, imports, zipping, launching
Ghidra) are recorded as an explicit event trace.

Modelling conventions:
* POSIX paths follow `pathlib.PurePosixPath`: a path is an `absolute` flag
  plus a list of components; parsing drops empty and `.` components.  The
  rare `//`-root distinction of POSIX is not modelled at the `PyPath`
  level, but the string-level `os.path.normpath` below implements the
  Python source of `posixpath.normpath` faithfully, including its
  treatment of `..`.
* Machine-independent Python strings are Lean `String`s; the string
  helpers below re-implement the exact `str.split`/`str.lstrip` behaviour
  used by the code with structural recursion so that all definitions are
  executable and kernel-reducible.
* Python `set` objects are modelled as insertion-ordered duplicate-free
  lists (`insertTarget`); the claims proved below do not depend on
  iteration order.
* Rich progress/status display calls and `verbose`-only diagnostics that
  merely repeat oracle data are not part of the event trace; every
  `console.log`, `log_error` and `log_warning` call of `main` outside a
  `verbose` guard is, as are all state-changing effects.
* A Python exception that `main` does not catch is the `exc` constructor
  of `MainResult` (carrying the events already performed); a normal return
  is `ret` with `main`'s `Optional[int]` value.
-/

/-! ## String helpers (structural re-implementations of `str` methods) -/

/-- Split a character list at `/` separators, keeping empty pieces,
exactly like Python's `"…".split("/")`. -/
def splitSlashAux : List Char → List Char → List String
  | [], acc => [String.mk acc.reverse]
  | c :: cs, acc =>
    if c = '/' then String.mk acc.reverse :: splitSlashAux cs []
    else splitSlashAux cs (c :: acc)

/-- Python `s.split("/")`. -/
def splitSlash (s : String) : List String :=
  splitSlashAux s.data []

/-- Join strings with `/` separators, like `"/".join(...)`. -/
def joinSlash : List String → String
  | [] => ""
  | [s] => s
  | s :: rest => s ++ "/" ++ joinSlash rest

/-- Python `s.lstrip(c)` for a single-character strip set. -/
def lstripChar (c : Char) (s : String) : String :=
  String.mk (s.data.dropWhile (fun d => d = c))

/-- Count of leading `/` characters relevant to `posixpath.normpath`:
`2` if the string starts with exactly two slashes, `1` if it starts with a
slash, `0` otherwise. -/
def initialSlashes (s : String) : Nat :=
  match s.data with
  | '/' :: '/' :: '/' :: _ => 1
  | '/' :: '/' :: _ => 2
  | '/' :: _ => 1
  | _ => 0

/-- The `..`-processing loop of `posixpath.normpath`: `acc` holds the
already-accepted components in reverse.  Empty and `.` components have
been filtered out beforehand (`posixpath.normpath` skips them inside the
same loop, which is equivalent). -/
def normpathComps (absolute : Bool) : List String → List String → List String
  | acc, [] => acc.reverse
  | acc, c :: rest =>
    if c = ".." then
      match acc with
      | [] =>
        if absolute then normpathComps absolute [] rest
        else normpathComps absolute [".."] rest
      | a :: as =>
        if a = ".." then normpathComps absolute (c :: a :: as) rest
        else normpathComps absolute as rest
    else normpathComps absolute (c :: acc) rest

/-- `os.path.normpath` for POSIX, translated from `posixpath.normpath`. -/
def normpathStr (path : String) : String :=
  if path = "" then "."
  else
    let slashes := initialSlashes path
    let comps := (splitSlash path).filter (fun c => c ≠ "" && c ≠ ".")
    let newComps := normpathComps (slashes > 0) [] comps
    let joined := joinSlash newComps
    let out := String.mk (List.replicate slashes '/') ++ joined
    if out = "" then "." else out

/-! ## `pathlib.PurePosixPath` model -/

/-- A POSIX path as `pathlib` represents it: an absoluteness flag and the
list of components (`Path.parts` without the root entry).  Empty and `.`
components never occur. -/
structure PyPath where
  absolute : Bool
  parts : List String
deriving DecidableEq, Repr

/-- Python `s.startswith("/")`, by structural match so that it
evaluates in the kernel. -/
def startsWithSlash (s : String) : Bool :=
  match s.data with
  | '/' :: _ => true
  | _ => false

/-- `Path(s)`: parse a string, dropping empty and `.` components as
`pathlib` does. -/
def parsePyPath (s : String) : PyPath :=
  ⟨startsWithSlash s, (splitSlash s).filter (fun c => c ≠ "" && c ≠ ".")⟩

/-- `str(path)` for the `PyPath` model (`pathlib` renders the empty
relative path as `.` and the root as `/`). -/
def render (p : PyPath) : String :=
  match p.parts with
  | [] => if p.absolute then "/" else "."
  | _ => (if p.absolute then "/" else "") ++ joinSlash p.parts

/-- `Path('/')`, the filesystem root (and `os.path.sep` as a path). -/
def rootPath : PyPath := ⟨true, []⟩

/-- `path.is_absolute()`. -/
def PyPath.isAbsolute (p : PyPath) : Bool := p.absolute

/-- `path.parent`: drop the final component (purely lexical, as
`pathlib` does). -/
def PyPath.parent (p : PyPath) : PyPath := ⟨p.absolute, p.parts.dropLast⟩

/-- `path.name`: the final component (empty for the root). -/
def PyPath.name (p : PyPath) : String := (p.parts.getLast?).getD ""

/-- `a / b`: `pathlib` join; an absolute right operand replaces the left
one. -/
def PyPath.join (a b : PyPath) : PyPath :=
  if b.absolute then b else ⟨a.absolute, a.parts ++ b.parts⟩

/-- `path.relative_to(os.path.sep)` for an absolute path: drop the root. -/
def PyPath.relativeToRoot (p : PyPath) : PyPath := ⟨false, p.parts⟩

/-- `p.relative_to(base)`: `some` of the relative remainder when `base`
is a prefix of `p`, `none` when `pathlib` would raise `ValueError`. -/
def PyPath.relativeTo (p base : PyPath) : Option PyPath :=
  if p.absolute = base.absolute && decide (base.parts <+: p.parts) then
    some ⟨false, p.parts.drop base.parts.length⟩
  else none

/-- `Path(os.path.normpath(p))`: render, normalize at string level with
the faithful `posixpath.normpath`, and re-parse. -/
def normpath (p : PyPath) : PyPath := parsePyPath (normpathStr (render p))

/-! ## `ResolveWithRoot` (dragonkick/main.py, lines 118-142) -/

/-- The filesystem view `ResolveWithRoot` consults: which paths are
symlinks, and what each symlink's stored destination is
(`Path.readlink`). -/
structure SymlinkFS where
  isSymlink : PyPath → Bool
  readlink : PyPath → PyPath

/-- One iteration body of `ResolveWithRoot`'s loop: read the symlink
destination, reinterpret an absolute destination under `sysroot`, resolve
a relative destination against the symlink's parent directory, and
normalize with `os.path.normpath`. -/
def resolveStep (fs : SymlinkFS) (sysroot : PyPath) (current_path : PyPath) : PyPath :=
  let link_destination := fs.readlink current_path
  let next_path :=
    if link_destination.isAbsolute then
      sysroot.join link_destination.relativeToRoot
    else
      current_path.parent.join link_destination
  normpath next_path

/-- The message of the `RecursionError` raised by `ResolveWithRoot`. -/
def tooManyLevelsMsg : String :=
  "Too many symlink levels; circular symlink suspected."

/-- The `for _ in range(100)` loop of `ResolveWithRoot`, with the
remaining iteration count explicit. -/
def ResolveWithRootLoop (fs : SymlinkFS) (sysroot : PyPath) :
    Nat → PyPath → Except String PyPath
  | 0, _ => Except.error tooManyLevelsMsg
  | fuel + 1, current_path =>
    if fs.isSymlink current_path then
      ResolveWithRootLoop fs sysroot fuel (resolveStep fs sysroot current_path)
    else
      Except.ok current_path

/-- `ResolveWithRoot(path_to_resolve, sysroot)`: chase symlinks under an
alternate root for at most 100 iterations. -/
def ResolveWithRoot (fs : SymlinkFS) (path_to_resolve sysroot : PyPath) :
    Except String PyPath :=
  ResolveWithRootLoop fs sysroot 100 path_to_resolve

/-- The `n`-fold iterate of the loop body starting from `p`. -/
def resolveIter (fs : SymlinkFS) (sysroot p : PyPath) : Nat → PyPath
  | 0 => p
  | n + 1 => resolveStep fs sysroot (resolveIter fs sysroot p n)

/-! ## `ZipProject` (dragonkick/main.py, lines 82-115) -/

/-- The filesystem view `ZipProject` consults.  `rglob` is
`project_dir.rglob("*")` with each result given as its component list
relative to the queried directory (pathlib's `rglob` always yields paths
of the form `dir / relative-part`, so this loses no generality and makes
`file.relative_to(project_dir)` exact).  `resolve` is `Path.resolve()`. -/
structure ZipFS where
  isDir : PyPath → Bool
  rglob : PyPath → List (List String)
  resolve : PyPath → PyPath

/-- What a successful `ZipProject` run produced: the archive path it
wrote, the `(file, arcname)` pairs written into it, and the resolved
archive path it returns. -/
structure ZipOutcome where
  zipPath : PyPath
  entries : List (PyPath × PyPath)
  resolved : PyPath
deriving DecidableEq, Repr

/-- `ZipProject(project_dir, project_name)`: `ValueError` when
`project_dir` is not a directory; otherwise write
`project_dir.parent / f"{project_name}.zip"` with one entry per path
under `project_dir`, each archived under its name relative to
`project_dir`, and return the resolved archive path. -/
def ZipProject (fs : ZipFS) (project_dir : PyPath) (project_name : String) :
    Except String ZipOutcome :=
  if fs.isDir project_dir = false then
    Except.error (render project_dir ++ " is not a valid project directory.")
  else
    let project_zip := project_dir.parent.join (parsePyPath (project_name ++ ".zip"))
    let project_files := (fs.rglob project_dir).map
      (fun r => PyPath.mk project_dir.absolute (project_dir.parts ++ r))
    Except.ok
      { zipPath := project_zip
        entries := project_files.map
          (fun file => (file, PyPath.mk false (file.parts.drop project_dir.parts.length)))
        resolved := fs.resolve project_zip }

/-! ## `GetParser` (dragonkick/main.py, lines 145-289) -/

/-- One `add_argument` option of `GetParser`, reduced to the data the
acceptance question depends on: its long flag and whether
`required=True` was passed. -/
structure ArgOption where
  flag : String
  required : Bool
deriving DecidableEq, Repr

/-- Every optional argument registered by `GetParser`, in source order.
Only `--project-name` carries `required=True`. -/
def dragonkickOptions : List ArgOption :=
  [⟨"--version", false⟩, ⟨"--verbose", false⟩,
   ⟨"--copy-to-project", false⟩, ⟨"--force-remove", false⟩,
   ⟨"--force-import", false⟩, ⟨"--project-name", true⟩,
   ⟨"--project-dir", false⟩, ⟨"--remove-existing-binaries", false⟩,
   ⟨"--start-ghidra", false⟩, ⟨"--zip-project", false⟩,
   ⟨"--skip-dependency-import", false⟩, ⟨"--skip-target-analysis", false⟩,
   ⟨"--do-dependency-analysis", false⟩, ⟨"--do-target-decompilation", false⟩,
   ⟨"--ignore-missing", false⟩, ⟨"--sysroot", false⟩,
   ⟨"--ghidra-install-dir", false⟩]

/-- The `nargs` specification of the single positional argument
`targets`. -/
def targetsNargs : String := "+"

/-- A command-line invocation as the acceptance question sees it: how
many positional target values were supplied and which long options were
given. -/
structure Supplied where
  numTargets : Nat
  givenOptions : List String
deriving DecidableEq, Repr

/-- Modelled behaviour of the `argparse` library for an `nargs`
specification: `"+"` requires at least one value. -/
def nargsOk (nargs : String) (n : Nat) : Bool :=
  if nargs = "+" then decide (1 ≤ n) else true

/-- Modelled behaviour of `argparse.ArgumentParser.parse_args` on the
parser built by `GetParser`: the positional `targets` must satisfy its
`nargs`, and every option registered with `required=True` must be
supplied; otherwise `argparse` raises `SystemExit` with status 2. -/
def dragonkickParse (s : Supplied) : Except Int Unit :=
  if nargsOk targetsNargs s.numTargets = false then Except.error 2
  else if dragonkickOptions.any
      (fun a => a.required && !(s.givenOptions.contains a.flag)) then
    Except.error 2
  else Except.ok ()

/-! ## `main` (dragonkick/main.py, lines 342-686): events and oracles -/

/-- Exit codes used by `main`, following BSD `sysexits.h`. -/
def EX_DATAERR : Int := 65

/-- `EX_NOINPUT`, the sysexits no-input code. -/
def EX_NOINPUT : Int := 66

/-- `EX_UNAVAILABLE`, the sysexits service-unavailable code. -/
def EX_UNAVAILABLE : Int := 69

/-- `EX_SOFTWARE`, the sysexits internal-software-error code. -/
def EX_SOFTWARE : Int := 70

/-- `EX_CANTCREAT`, the sysexits cannot-create code. -/
def EX_CANTCREAT : Int := 73

/-- `EX_IOERR`, the sysexits I/O-error code. -/
def EX_IOERR : Int := 74

/-- An observable effect performed by `main`. -/
inductive Event where
  | logError (msg : String)
  | logWarning (msg : String)
  | logInfo (msg : String)
  | rmtree (p : PyPath)
  | unlink (p : PyPath)
  | setGhidraInstallDir (value : String)
  | startPyghidra
  | mkdir (p : PyPath) (parents : Bool) (exist_ok : Bool)
  | copy2 (src : PyPath) (dstDir : PyPath)
  | openProgram (p : PyPath) (analyze : Bool)
  | gitInit (p : PyPath)
  | decompileTarget (p : PyPath)
  | gitCommit (p : PyPath)
  | zipCreated (p : PyPath) (entries : List (PyPath × PyPath))
  | runGhidra (launcher : PyPath) (project : PyPath)
deriving DecidableEq, Repr

/-- Outcome of the `pyghidra.start()` call. -/
inductive StartOutcome where
  | ok
  | valueError (msg : String)
  | otherError (msg : String)
deriving DecidableEq, Repr

/-- One entry of `cle.Loader(...).shared_objects`: its dictionary key,
the `binary` file path, and whether it is the main binary. -/
structure SharedObject where
  key : String
  binary : String
  is_main_bin : Bool
deriving DecidableEq, Repr

/-- The outside world as `main` observes it.  Filesystem queries are
snapshots taken at the moment `main` performs them; the two queries of
the Ghidra project file straddle the import phase that creates it, so
they are separate oracles (`gprAtCheck`, `gprAtEnd`), as is the
filesystem view `ZipProject` sees after the imports (`zipView`). -/
structure Env where
  isDir : PyPath → Bool
  isFile : PyPath → Bool
  isSymlink : PyPath → Bool
  readlink : PyPath → PyPath
  resolve : PyPath → PyPath
  glob : String → List String
  iterdir : PyPath → List PyPath
  gprAtCheck : Bool
  envGhidraInstallDir : Option String
  startOutcome : StartOutcome
  started : Bool
  ghidraVersion : String
  cleLoad : PyPath → Bool → List PyPath → Except String (List SharedObject)
  openProgram : PyPath → Bool → Except String Unit
  zipView : ZipFS
  gprAtEnd : Bool

/-- The symlink view `ResolveWithRoot` receives from `main`'s world. -/
def Env.fsView (env : Env) : SymlinkFS :=
  ⟨env.isSymlink, env.readlink⟩

/-- The parsed command-line options (`argparse.Namespace`). -/
structure Options where
  targets : List String
  verbose : Bool
  copy_to_project : Bool
  force_remove : Bool
  force_import : Bool
  project_name : String
  project_dir : Option PyPath
  remove_existing_binaries : Bool
  start_ghidra : Bool
  zip_project : Bool
  skip_dependency_import : Bool
  skip_target_analysis : Bool
  do_dependency_analysis : Bool
  do_target_decompilation : Bool
  ignore_missing : Bool
  sysroot : PyPath
  ghidra_install_dir : Option PyPath

/-- The result of running `main`: either an uncaught Python exception
(with the events performed before it was raised) or a normal return of
`main`'s `Optional[int]` value. -/
inductive MainResult where
  | exc (msg : String) (events : List Event)
  | ret (code : Option Int) (events : List Event)
deriving DecidableEq, Repr

/-- The events a `main` run performed, whether it returned or raised. -/
def MainResult.events : MainResult → List Event
  | .exc _ evs => evs
  | .ret _ evs => evs

/-- Result of a phase that can raise an uncaught exception. -/
inductive StepResult where
  | exc (msg : String) (events : List Event)
  | ok (events : List Event)
deriving DecidableEq, Repr

/-- The events of a `StepResult`. -/
def StepResult.events : StepResult → List Event
  | .exc _ evs => evs
  | .ok evs => evs

/-! ## `main` phase 1: sysroot and target collection -/

/-- `sysroot = Path(os.path.normpath(options.sysroot)).resolve()`. -/
def sysrootOf (env : Env) (o : Options) : PyPath :=
  env.resolve (normpath o.sysroot)

/-- Python `set.add` on the insertion-ordered list model. -/
def insertTarget (acc : List PyPath) (p : PyPath) : List PyPath :=
  if p ∈ acc then acc else acc ++ [p]

/-- Result of the target-collection loop: an uncaught exception
(`RecursionError` from `ResolveWithRoot`), an early
`return EX_NOINPUT` on a missing target, or the collected target set. -/
inductive CollectResult where
  | exc (msg : String) (events : List Event)
  | missing (p : PyPath) (events : List Event)
  | ok (targets : List PyPath) (events : List Event)
deriving DecidableEq, Repr

/-- The inner `for ex in target_ex` loop: resolve each glob expansion
through `ResolveWithRoot`, require it to be a file unless
`--ignore-missing` is set, and add it to the target set. -/
def collectExs (env : Env) (ignore_missing : Bool) (sysroot : PyPath) :
    List String → List PyPath → List Event → CollectResult
  | [], acc, evs => CollectResult.ok acc evs
  | ex :: rest, acc, evs =>
    match ResolveWithRoot env.fsView (parsePyPath ex) sysroot with
    | Except.error e => CollectResult.exc e evs
    | Except.ok target_path =>
      if env.isFile target_path then
        collectExs env ignore_missing sysroot rest (insertTarget acc target_path) evs
      else if ignore_missing then
        collectExs env ignore_missing sysroot rest acc
          (evs ++ [Event.logWarning
            ("Target " ++ render target_path ++ " does not exist, skipping")])
      else
        CollectResult.missing target_path
          (evs ++ [Event.logError ("Target " ++ render target_path ++ " does not exist")])

/-- The outer `for target in options.targets` loop: normalize the raw
target string, root it under the sysroot (or resolve it directly when the
sysroot is `/`), expand it with `glob`, and process the expansions. -/
def collectLoop (env : Env) (ignore_missing : Bool) (sysroot : PyPath) :
    List String → List PyPath → List Event → CollectResult
  | [], acc, evs => CollectResult.ok acc evs
  | t :: ts, acc, evs =>
    let tn := normpathStr t
    let target_path :=
      if sysroot = rootPath then env.resolve (parsePyPath tn)
      else sysroot.join (parsePyPath (lstripChar '/' (lstripChar '.' tn)))
    match collectExs env ignore_missing sysroot (env.glob (render target_path)) acc evs with
    | CollectResult.ok acc2 evs2 => collectLoop env ignore_missing sysroot ts acc2 evs2
    | r => r

/-- The whole target-collection phase of `main`. -/
def collectTargets (env : Env) (o : Options) (sysroot : PyPath) : CollectResult :=
  collectLoop env o.ignore_missing sysroot o.targets [] []

/-! ## `main` phase 2: project layout, removal, gates -/

/-- `project_dir`: `--project-dir` normalized, or `Path(project_name)`. -/
def projectDirOf (o : Options) : PyPath :=
  match o.project_dir with
  | some pd => normpath pd
  | none => parsePyPath o.project_name

/-- `bin_dir = project_dir / "bin"`. -/
def binDirOf (o : Options) : PyPath := (projectDirOf o).join (parsePyPath "bin")

/-- `lib_dir = project_dir / "lib"`. -/
def libDirOf (o : Options) : PyPath := (projectDirOf o).join (parsePyPath "lib")

/-- `src_dir = project_dir / "src"`. -/
def srcDirOf (o : Options) : PyPath := (projectDirOf o).join (parsePyPath "src")

/-- `ghidra_project = project_dir / project_name / f"{project_name}.gpr"`. -/
def gprOf (o : Options) : PyPath :=
  ((projectDirOf o).join (parsePyPath o.project_name)).join
    (parsePyPath (o.project_name ++ ".gpr"))

/-- The `for x in dir.iterdir(): if x.is_file(): x.unlink()` loops of the
`--remove-existing-binaries` branch (with their `verbose` logs). -/
def unlinkFiles (env : Env) (verbose : Bool) (label : String) :
    List PyPath → List Event
  | [] => []
  | p :: ps =>
    (if env.isFile p then
      [Event.unlink p] ++
        (if verbose then
          [Event.logInfo ("Removed previous " ++ label ++ " [bold]" ++ p.name ++ "[/bold]")]
        else [])
    else []) ++ unlinkFiles env verbose label ps

/-- The `--force-remove` / `--remove-existing-binaries` phase. -/
def removePhase (env : Env) (o : Options) (project_dir bin_dir lib_dir : PyPath) :
    List Event :=
  if env.isDir project_dir && o.force_remove then
    [Event.logInfo ("[red]Removing existing project [bold]"
       ++ render (env.resolve project_dir) ++ "[/bold]"),
     Event.rmtree project_dir]
  else if o.remove_existing_binaries then
    [Event.logInfo "[red]Removing existing binaries from project"]
    ++ (if env.isDir lib_dir then
          unlinkFiles env o.verbose "dependency" (env.iterdir lib_dir)
        else [])
    ++ (if env.isDir bin_dir then
          unlinkFiles env o.verbose "target" (env.iterdir bin_dir)
        else [])
  else []

/-- The Ghidra installation directory: `--ghidra-install-dir`, else the
`GHIDRA_INSTALL_DIR` environment variable, else `/opt/ghidra`. -/
def ghidraInstallDirOf (env : Env) (o : Options) : PyPath :=
  match o.ghidra_install_dir with
  | some d => d
  | none =>
    match env.envGhidraInstallDir with
    | some s => parsePyPath s
    | none => parsePyPath "/opt/ghidra"

/-! ## `main` phase 3: dependency discovery and imports -/

/-- `use_system_libs`: whether the sysroot is the real root. -/
def useSystemLibsOf (sysroot : PyPath) : Bool := sysroot = rootPath

/-- The `ld_path` list handed to `cle.Loader`. -/
def ldPathOf (sysroot : PyPath) : List PyPath :=
  if useSystemLibsOf sysroot then []
  else
    [sysroot, sysroot.join (parsePyPath "lib"), sysroot.join (parsePyPath "lib64"),
     sysroot.join (parsePyPath "usr/lib"), sysroot.join (parsePyPath "usr/lib64")]

/-- The `for k, obj in ld.shared_objects.items()` loop: resolve each
object's path; a main binary is optionally copied into `bin/`, a
dependency is (unless `--skip-dependency-import`) optionally copied into
`lib/` and added to the dependency set. -/
def processObjects (env : Env) (o : Options) (bin_dir lib_dir : PyPath) :
    List SharedObject → List PyPath → List Event → List PyPath × List Event
  | [], deps, evs => (deps, evs)
  | obj :: objs, deps, evs =>
    let abs_obj_path := env.resolve (parsePyPath obj.binary)
    if env.isFile abs_obj_path then
      if obj.is_main_bin then
        processObjects env o bin_dir lib_dir objs deps
          (evs ++ (if o.copy_to_project then [Event.copy2 abs_obj_path bin_dir] else []))
      else if o.skip_dependency_import = false then
        processObjects env o bin_dir lib_dir objs (insertTarget deps abs_obj_path)
          (evs ++ (if o.copy_to_project then [Event.copy2 abs_obj_path lib_dir] else []))
      else
        processObjects env o bin_dir lib_dir objs deps evs
    else
      processObjects env o bin_dir lib_dir objs deps evs

/-- The `for target in list(targets)[:]` loop: run `cle.Loader` on each
collected target; on any exception, log it, remove the target from the
target set and continue; on success, process the loader's shared
objects. -/
def depLoop (env : Env) (o : Options) (usl : Bool) (ldp : List PyPath)
    (bin_dir lib_dir : PyPath) :
    List PyPath → List PyPath → List PyPath → List Event →
      List PyPath × List PyPath × List Event
  | [], survivors, deps, evs => (survivors, deps, evs)
  | t :: ts, survivors, deps, evs =>
    match env.cleLoad t usl ldp with
    | Except.error e =>
      depLoop env o usl ldp bin_dir lib_dir ts (survivors.erase t) deps
        (evs ++ [Event.logError e])
    | Except.ok objs =>
      let pr := processObjects env o bin_dir lib_dir objs deps evs
      depLoop env o usl ldp bin_dir lib_dir ts survivors pr.1 pr.2

/-- The dependency-import loop over `deps`: each import is a
`pyghidra.open_program` call whose exceptions `main` does not catch. -/
def importDeps (env : Env) (analyze : Bool) :
    List PyPath → List Event → StepResult
  | [], evs => StepResult.ok evs
  | d :: ds, evs =>
    match env.openProgram d analyze with
    | Except.error e => StepResult.exc e evs
    | Except.ok _ => importDeps env analyze ds (evs ++ [Event.openProgram d analyze])

/-- The target-import loop: import (and unless `--skip-target-analysis`
analyze) each surviving target, then optionally decompile it into a
per-target git repository under `src/`. -/
def importTargets (env : Env) (o : Options) (src_dir : PyPath) :
    List PyPath → List Event → StepResult
  | [], evs => StepResult.ok evs
  | t :: ts, evs =>
    let analyze_target := !o.skip_target_analysis
    match env.openProgram t analyze_target with
    | Except.error e => StepResult.exc e evs
    | Except.ok _ =>
      let evs2 := evs ++ [Event.openProgram t analyze_target]
      let evs3 :=
        if o.do_target_decompilation then
          let target_src := src_dir.join (parsePyPath t.name)
          evs2 ++ [Event.mkdir target_src true true, Event.gitInit target_src,
                   Event.decompileTarget t, Event.gitCommit target_src]
        else evs2
      importTargets env o src_dir ts evs3

/-- The `--zip-project` phase: `ZipProject` failures are caught and
logged. -/
def zipPhase (env : Env) (o : Options) (project_dir : PyPath) (project_name : String) :
    List Event :=
  if o.zip_project then
    match ZipProject env.zipView project_dir project_name with
    | Except.error e =>
      [Event.logError ("Failed to zip " ++ render project_dir), Event.logError e]
    | Except.ok zr =>
      [Event.zipCreated zr.zipPath zr.entries,
       Event.logInfo ("Project zip saved " ++ render zr.resolved)]
  else []

/-! ## `main` assembled -/

/-- The log and `mkdir` events performed right after PyGhidra has
started: version banner, project setup, the four `mkdir(exist_ok=True)`
calls, and the sysroot banner. -/
def startedHeader (env : Env) (o : Options)
    (sysroot project_dir bin_dir lib_dir src_dir ghidra_install_dir : PyPath) :
    List Event :=
  [Event.logInfo "PyGhidra started",
   Event.logInfo ("Using Ghidra " ++ env.ghidraVersion ++ " from "
     ++ render ghidra_install_dir),
   Event.logInfo ("Setting up project " ++ o.project_name ++ " in "
     ++ render (env.resolve project_dir)),
   Event.mkdir project_dir false true,
   Event.mkdir bin_dir false true,
   Event.mkdir lib_dir false true,
   Event.mkdir src_dir false true,
   Event.logInfo ("Using sysroot " ++ render sysroot)]

/-- The tail of the `pyghidra.started()` body once the dependency loop
has produced the surviving targets and the dependency set: the count
logs, the empty-target gate, the two import loops, zipping, the final
project-file check and the optional Ghidra launch. -/
def finishPhase (env : Env) (o : Options)
    (project_dir src_dir ghidra_project ghidra_install_dir : PyPath)
    (survivors deps : List PyPath) (evs : List Event) : MainResult :=
  if survivors = [] then
    MainResult.ret (some EX_NOINPUT) (evs ++ [Event.logError "No target to import"])
  else
    match
      (if (!o.skip_dependency_import) && !deps.isEmpty then
        importDeps env o.do_dependency_analysis deps evs
      else StepResult.ok evs) with
    | StepResult.exc e evs2 => MainResult.exc e evs2
    | StepResult.ok evs2 =>
      match importTargets env o src_dir survivors evs2 with
      | StepResult.exc e evs3 => MainResult.exc e evs3
      | StepResult.ok evs3 =>
        let evs4 := evs3 ++ zipPhase env o project_dir o.project_name
        if env.gprAtEnd then
          MainResult.ret (some 0)
            (evs4
              ++ [Event.logInfo ("The project is ready to be opened with Ghidra "
                    ++ render (env.resolve ghidra_project))]
              ++ (if o.start_ghidra then
                    [Event.runGhidra (ghidra_install_dir.join (parsePyPath "ghidraRun"))
                      (env.resolve ghidra_project)]
                  else []))
        else
          MainResult.ret (some EX_UNAVAILABLE)
            (evs4 ++ [Event.logError ("Ghidra project " ++ render ghidra_project
              ++ " not found")])

/-- The count logs followed by `finishPhase`. -/
def importAndFinish (env : Env) (o : Options)
    (project_dir src_dir ghidra_project ghidra_install_dir : PyPath)
    (survivors deps : List PyPath) (evs0 : List Event) : MainResult :=
  let evs := evs0 ++
    (if o.skip_dependency_import = false then
      [Event.logInfo ("Importing " ++ toString deps.length
        ++ " shared object dependencies")]
    else [])
  let evs := evs ++ [Event.logInfo ("Importing " ++ toString survivors.length ++ " targets")]
  let evs := evs ++
    (if o.skip_target_analysis then [Event.logInfo "[yellow]Skipping target analysis"] else [])
  finishPhase env o project_dir src_dir ghidra_project ghidra_install_dir
    survivors deps evs

/-- The body of `if pyghidra.started():` — directory setup, dependency
discovery, then `importAndFinish` on the dependency loop's results. -/
def startedBody (env : Env) (o : Options) (sysroot : PyPath)
    (targets : List PyPath)
    (project_dir bin_dir lib_dir src_dir ghidra_project ghidra_install_dir : PyPath)
    (evs0 : List Event) : MainResult :=
  let evs := evs0 ++ startedHeader env o sysroot project_dir bin_dir lib_dir src_dir
    ghidra_install_dir
  let usl := useSystemLibsOf sysroot
  let ldp := ldPathOf sysroot
  let evs := evs ++
    (if o.copy_to_project then [Event.logInfo "Saving binaries under project tree"] else [])
  let evs := evs ++
    (if o.skip_dependency_import then
      [Event.logInfo "[yellow]Skipping target dependency import"]
    else
      [Event.logInfo ("Resolving dependency for targets " ++ joinSlash o.targets)])
  let dres := depLoop env o usl ldp bin_dir lib_dir targets targets [] evs
  importAndFinish env o project_dir src_dir ghidra_project ghidra_install_dir
    dres.1 dres.2.1 dres.2.2

/-- `main` after target collection: project naming, the removal phase,
the existing-project gate, `pyghidra.start()` error mapping, and the
`pyghidra.started()` gate. -/
def afterCollect (env : Env) (o : Options) (sysroot : PyPath)
    (targets : List PyPath) (evs0 : List Event) : MainResult :=
  let project_dir := projectDirOf o
  let bin_dir := binDirOf o
  let lib_dir := libDirOf o
  let src_dir := srcDirOf o
  let ghidra_project := gprOf o
  let evs := evs0 ++ removePhase env o project_dir bin_dir lib_dir
  if env.gprAtCheck && !o.force_import then
    MainResult.ret (some EX_CANTCREAT)
      (evs ++ [Event.logError ("Ghidra project " ++ render (env.resolve ghidra_project)
        ++ " already exists, use -f to force re-importing binaries")])
  else
    let ghidra_install_dir := ghidraInstallDirOf env o
    let evs := evs ++ [Event.setGhidraInstallDir (render ghidra_install_dir),
                       Event.startPyghidra]
    match env.startOutcome with
    | StartOutcome.valueError e =>
      MainResult.ret (some EX_UNAVAILABLE)
        (evs ++ [Event.logError ("Starting Ghidra from " ++ render ghidra_install_dir),
                 Event.logError e])
    | StartOutcome.otherError e =>
      MainResult.ret (some EX_SOFTWARE)
        (evs ++ [Event.logError ("Starting Ghidra from " ++ render ghidra_install_dir),
                 Event.logError e])
    | StartOutcome.ok =>
      if env.started then
        startedBody env o sysroot targets project_dir bin_dir lib_dir src_dir
          ghidra_project ghidra_install_dir evs
      else
        MainResult.ret none evs

/-- `main(options)`: the whole program, from the sysroot check to the
final return.  (Named `dragonkickMain` because Lean reserves `main` for
executable entry points.) -/
def dragonkickMain (env : Env) (o : Options) : MainResult :=
  let sysroot := sysrootOf env o
  if env.isDir sysroot then
    match collectTargets env o sysroot with
    | CollectResult.exc e evs => MainResult.exc e evs
    | CollectResult.missing _ evs => MainResult.ret (some EX_NOINPUT) evs
    | CollectResult.ok targets evs => afterCollect env o sysroot targets evs
  else
    MainResult.ret (some EX_NOINPUT)
      [Event.logError ("Sysroot " ++ render sysroot ++ " does not exist")]

/-- Whether `cle.Loader` succeeds on a target under explicit loader
arguments. -/
def cleOkWith (env : Env) (usl : Bool) (ldp : List PyPath) (t : PyPath) : Bool :=
  match env.cleLoad t usl ldp with
  | Except.ok _ => true
  | Except.error _ => false

/-- Whether `cle.Loader` succeeds on a target (with the loader arguments
`main` uses for the given sysroot). -/
def cleOk (env : Env) (sysroot : PyPath) (t : PyPath) : Bool :=
  cleOkWith env (useSystemLibsOf sysroot) (ldPathOf sysroot) t

/-- The set of targets `main` actually imports: the collected targets
minus those the external loader failed on. -/
def importSet (env : Env) (sysroot : PyPath) (ts : List PyPath) : List PyPath :=
  ts.filter (cleOk env sysroot)

/-- `main` has passed the sysroot check, collected `ts` with events
`evs`, passed the existing-project gate, and PyGhidra started. -/
def reachesStarted (env : Env) (o : Options) (ts : List PyPath) (evs : List Event) : Prop :=
  env.isDir (sysrootOf env o) = true ∧
  collectTargets env o (sysrootOf env o) = CollectResult.ok ts evs ∧
  (env.gprAtCheck = false ∨ o.force_import = true) ∧
  env.startOutcome = StartOutcome.ok ∧
  env.started = true

/-! ## Lemmas about `ResolveWithRoot` -/

/-- Iterating `n + 1` times from `p` is iterating `n` times from the
first step. -/
theorem resolveIter_shift (fs : SymlinkFS) (sysroot p : PyPath) :
    ∀ n, resolveIter fs sysroot p (n + 1) =
      resolveIter fs sysroot (resolveStep fs sysroot p) n := by
  intro n
  induction n with
  | zero => rfl
  | succ k ih =>
    simp only [resolveIter] at ih ⊢
    rw [ih]

/-- Full characterization of the bounded symlink-chasing loop: with
`fuel` iterations left it either returns the first non-symlink iterate
reached strictly within `fuel` steps, or every iterate it examines is a
symlink and it raises. -/
theorem ResolveWithRootLoop_spec (fs : SymlinkFS) (sysroot : PyPath) :
    ∀ (fuel : Nat) (p : PyPath),
      (∃ n, n < fuel ∧ fs.isSymlink (resolveIter fs sysroot p n) = false ∧
        (∀ m, m < n → fs.isSymlink (resolveIter fs sysroot p m) = true) ∧
        ResolveWithRootLoop fs sysroot fuel p =
          Except.ok (resolveIter fs sysroot p n))
      ∨ ((∀ m, m < fuel → fs.isSymlink (resolveIter fs sysroot p m) = true) ∧
        ResolveWithRootLoop fs sysroot fuel p = Except.error tooManyLevelsMsg) := by
  intro fuel
  induction fuel with
  | zero =>
    intro p
    exact Or.inr ⟨fun m hm => absurd hm (Nat.not_lt_zero m), rfl⟩
  | succ k ih =>
    intro p
    cases hs : fs.isSymlink p with
    | false =>
      refine Or.inl ⟨0, Nat.succ_pos k, hs, ?_, ?_⟩
      · intro m hm; exact absurd hm (Nat.not_lt_zero m)
      · simp [ResolveWithRootLoop, hs, resolveIter]
    | true =>
      rcases ih (resolveStep fs sysroot p) with ⟨n, hn, h1, h2, h3⟩ | ⟨h1, h2⟩
      · refine Or.inl ⟨n + 1, Nat.succ_lt_succ hn, ?_, ?_, ?_⟩
        · rw [resolveIter_shift]; exact h1
        · intro m hm
          match m with
          | 0 => exact hs
          | m + 1 =>
            rw [resolveIter_shift]
            exact h2 m (Nat.lt_of_succ_lt_succ hm)
        · simp only [ResolveWithRootLoop, hs, if_true]
          rw [resolveIter_shift]
          exact h3
      · refine Or.inr ⟨?_, ?_⟩
        · intro m hm
          match m with
          | 0 => exact hs
          | m + 1 =>
            rw [resolveIter_shift]
            exact h1 m (Nat.lt_of_succ_lt_succ hm)
        · simp only [ResolveWithRootLoop, hs, if_true]
          exact h2

/-- C3: For every input path, `ResolveWithRoot` terminates: it performs
at most 100 symlink-dereference iterations; it returns the first
non-symlink path reached within that limit, and raises `RecursionError`
("Too many symlink levels; circular symlink suspected.") if the path is
still a symlink after exhausting the 100 iterations. -/
theorem claim_C3 (fs : SymlinkFS) (p sysroot : PyPath) :
    (∃ n, n < 100 ∧ fs.isSymlink (resolveIter fs sysroot p n) = false ∧
      (∀ m, m < n → fs.isSymlink (resolveIter fs sysroot p m) = true) ∧
      ResolveWithRoot fs p sysroot = Except.ok (resolveIter fs sysroot p n))
    ∨ ((∀ m, m < 100 → fs.isSymlink (resolveIter fs sysroot p m) = true) ∧
      ResolveWithRoot fs p sysroot = Except.error tooManyLevelsMsg) :=
  ResolveWithRootLoop_spec fs sysroot 100 p

/-- C4: in each step of `ResolveWithRoot`, a symlink whose destination
is absolute is reinterpreted under the alternate root (sysroot joined
with the destination stripped of its leading separator), a relative
destination is resolved against the symlink's parent directory, and the
result is normalized with `os.path.normpath` before the next
iteration. -/
theorem claim_C4 (fs : SymlinkFS) (sysroot p : PyPath) (fuel : Nat)
    (h : fs.isSymlink p = true) :
    ResolveWithRootLoop fs sysroot (fuel + 1) p =
      ResolveWithRootLoop fs sysroot fuel
        (normpath
          (if (fs.readlink p).isAbsolute then
            sysroot.join (fs.readlink p).relativeToRoot
          else
            p.parent.join (fs.readlink p))) := by
  simp only [ResolveWithRootLoop, h, if_true, resolveStep]

/-- A one-symlink filesystem used to exercise `claim_C4`. -/
def symlinkFSW : SymlinkFS :=
  { isSymlink := fun p => p = ⟨false, ["bin", "sh"]⟩
    readlink := fun _ => ⟨true, ["usr", "bin", "dash"]⟩ }

/-- Witness for C4 at a concrete symlink. -/
theorem claim_C4_witness :
    symlinkFSW.isSymlink ⟨false, ["bin", "sh"]⟩ = true ∧
    ResolveWithRootLoop symlinkFSW ⟨true, ["root"]⟩ 1 ⟨false, ["bin", "sh"]⟩ =
      ResolveWithRootLoop symlinkFSW ⟨true, ["root"]⟩ 0
        (normpath
          (if (symlinkFSW.readlink ⟨false, ["bin", "sh"]⟩).isAbsolute then
            PyPath.join ⟨true, ["root"]⟩
              (symlinkFSW.readlink ⟨false, ["bin", "sh"]⟩).relativeToRoot
          else
            PyPath.join (PyPath.parent ⟨false, ["bin", "sh"]⟩)
              (symlinkFSW.readlink ⟨false, ["bin", "sh"]⟩))) :=
  ⟨by decide, claim_C4 symlinkFSW ⟨true, ["root"]⟩ ⟨false, ["bin", "sh"]⟩ 0 (by decide)⟩

/-! ## `ZipProject` and `GetParser` claims -/

/-- C9: `ZipProject` raises `ValueError` if and only if `project_dir` is
not a directory; otherwise it creates the archive at
`project_dir.parent / f"{project_name}.zip"` with one entry per path
recursively under `project_dir`, each archived under its name relative to
`project_dir`, and returns the resolved archive path. -/
theorem claim_C9 (fs : ZipFS) (project_dir : PyPath) (project_name : String) :
    ((∃ e, ZipProject fs project_dir project_name = Except.error e) ↔
      fs.isDir project_dir = false)
    ∧ (fs.isDir project_dir = false →
      ZipProject fs project_dir project_name =
        Except.error (render project_dir ++ " is not a valid project directory."))
    ∧ (fs.isDir project_dir = true →
      ∃ zr, ZipProject fs project_dir project_name = Except.ok zr
        ∧ zr.zipPath = project_dir.parent.join (parsePyPath (project_name ++ ".zip"))
        ∧ zr.entries = (fs.rglob project_dir).map
            (fun r => (PyPath.mk project_dir.absolute (project_dir.parts ++ r),
                       PyPath.mk false r))
        ∧ (∀ pr ∈ zr.entries,
            PyPath.relativeTo pr.1 project_dir = some pr.2 ∧ pr.2.absolute = false)
        ∧ zr.resolved = fs.resolve zr.zipPath) := by
  refine ⟨?_, ?_, ?_⟩
  · constructor
    · rintro ⟨e, he⟩
      by_contra hdir
      simp only [Bool.not_eq_false] at hdir
      simp [ZipProject, hdir] at he
    · intro hdir
      exact ⟨render project_dir ++ " is not a valid project directory.",
        by simp [ZipProject, hdir]⟩
  · intro hdir
    simp [ZipProject, hdir]
  · intro hdir
    refine ⟨⟨project_dir.parent.join (parsePyPath (project_name ++ ".zip")),
            (fs.rglob project_dir).map
              (fun r => (PyPath.mk project_dir.absolute (project_dir.parts ++ r),
                         PyPath.mk false r)),
            fs.resolve (project_dir.parent.join (parsePyPath (project_name ++ ".zip")))⟩,
          ?_, rfl, rfl, ?_, rfl⟩
    · simp only [ZipProject, hdir, Bool.true_eq_false, if_neg, List.map_map]
      refine congrArg Except.ok ?_
      refine congrArg (fun l => ZipOutcome.mk _ l _) ?_
      refine List.map_congr_left ?_
      intro r _
      simp [Function.comp, List.drop_left]
    · intro pr hpr
      simp only [List.mem_map] at hpr
      obtain ⟨r, _, hr⟩ := hpr
      subst hr
      simp [PyPath.relativeTo, List.prefix_append, List.drop_left]

/-- A small filesystem exercising the success branch of `claim_C9`. -/
def zipFSW : ZipFS :=
  { isDir := fun _ => true
    rglob := fun _ => [["a.c"], ["sub", "b.c"]]
    resolve := fun p => p }

/-- Witness for C9 on a concrete directory tree. -/
theorem claim_C9_witness :
    zipFSW.isDir ⟨true, ["proj"]⟩ = true ∧
    (∃ zr, ZipProject zipFSW ⟨true, ["proj"]⟩ "demo" = Except.ok zr
      ∧ zr.zipPath = PyPath.join (PyPath.parent ⟨true, ["proj"]⟩) (parsePyPath "demo.zip")
      ∧ zr.entries = (zipFSW.rglob ⟨true, ["proj"]⟩).map
          (fun r => (PyPath.mk true (["proj"] ++ r), PyPath.mk false r))
      ∧ (∀ pr ∈ zr.entries,
          PyPath.relativeTo pr.1 ⟨true, ["proj"]⟩ = some pr.2 ∧ pr.2.absolute = false)
      ∧ zr.resolved = zipFSW.resolve zr.zipPath) :=
  ⟨rfl, (claim_C9 zipFSW ⟨true, ["proj"]⟩ "demo").2.2 rfl⟩

/-- C8: the command-line parser accepts an invocation exactly when at
least one positional target and the required `--project-name` option are
supplied, and raises `SystemExit` (status 2) exactly when either is
missing. -/
theorem claim_C8 (s : Supplied) :
    (dragonkickParse s = Except.ok () ↔
      1 ≤ s.numTargets ∧ "--project-name" ∈ s.givenOptions)
    ∧ (dragonkickParse s = Except.error 2 ↔
      s.numTargets = 0 ∨ "--project-name" ∉ s.givenOptions) := by
  have hmem : (s.givenOptions.contains "--project-name" = true) ↔
      "--project-name" ∈ s.givenOptions := by
    simp
  by_cases h1 : 1 ≤ s.numTargets
  · by_cases h2 : "--project-name" ∈ s.givenOptions
    · have hc : s.givenOptions.contains "--project-name" = true := hmem.mpr h2
      have hv : dragonkickParse s = Except.ok () := by
        simp [dragonkickParse, dragonkickOptions, nargsOk, targetsNargs, h1, hc, h2]
      rw [hv]
      constructor
      · exact iff_of_true rfl ⟨h1, h2⟩
      · constructor
        · intro h; exact absurd h (by simp)
        · intro h
          rcases h with h | h
          · omega
          · exact absurd h2 h
    · have hc : s.givenOptions.contains "--project-name" = false := by
        cases hcc : s.givenOptions.contains "--project-name" with
        | false => rfl
        | true => exact absurd (hmem.mp hcc) h2
      have hv : dragonkickParse s = Except.error 2 := by
        simp [dragonkickParse, dragonkickOptions, nargsOk, targetsNargs, h1, hc, h2]
      rw [hv]
      constructor
      · exact iff_of_false (by simp) (fun hh => h2 hh.2)
      · exact iff_of_true rfl (Or.inr h2)
  · have h0 : s.numTargets = 0 := by omega
    have hv : dragonkickParse s = Except.error 2 := by
      simp [dragonkickParse, nargsOk, targetsNargs, h0]
    rw [hv]
    constructor
    · simp [h0]
    · simp [h0]

/-! ## Event-trace infrastructure -/

/-- `l2` carries `l1` as a prefix: event traces only ever grow by
appending. -/
def extendsEv (l1 l2 : List Event) : Prop := ∃ ex, l2 = l1 ++ ex

theorem extendsEv_refl (l : List Event) : extendsEv l l :=
  ⟨[], (List.append_nil l).symm⟩

theorem extendsEv_append (l ex : List Event) : extendsEv l (l ++ ex) :=
  ⟨ex, rfl⟩

theorem extendsEv_trans {l1 l2 l3 : List Event}
    (h1 : extendsEv l1 l2) (h2 : extendsEv l2 l3) : extendsEv l1 l3 := by
  obtain ⟨ex1, rfl⟩ := h1
  obtain ⟨ex2, rfl⟩ := h2
  exact ⟨ex1 ++ ex2, by simp⟩

theorem extendsEv_append2 (l a b : List Event) : extendsEv l ((l ++ a) ++ b) :=
  ⟨a ++ b, by simp⟩

theorem extendsEv_append3 (l a b c : List Event) : extendsEv l (((l ++ a) ++ b) ++ c) :=
  ⟨a ++ b ++ c, by simp⟩

theorem extendsEv_mem {l1 l2 : List Event} (h : extendsEv l1 l2) {e : Event}
    (he : e ∈ l1) : e ∈ l2 := by
  obtain ⟨ex, rfl⟩ := h
  exact List.mem_append_left ex he

/-- `processObjects` only appends to the event trace. -/
theorem processObjects_events (env : Env) (o : Options) (bd ld : PyPath) :
    ∀ objs deps evs, extendsEv evs (processObjects env o bd ld objs deps evs).2 := by
  intro objs
  induction objs with
  | nil => intro deps evs; exact extendsEv_refl evs
  | cons obj objs ih =>
    intro deps evs
    simp only [processObjects]
    by_cases hf : env.isFile (env.resolve (parsePyPath obj.binary)) = true
    · simp only [hf, if_true]
      by_cases hm : obj.is_main_bin = true
      · simp only [hm, if_true]
        exact extendsEv_trans (extendsEv_append _ _) (ih _ _)
      · simp only [Bool.not_eq_true] at hm
        simp only [hm, Bool.false_eq_true, if_false]
        by_cases hs : o.skip_dependency_import = false
        · simp only [hs, if_true]
          exact extendsEv_trans (extendsEv_append _ _) (ih _ _)
        · simp only [hs, if_false]
          exact ih _ _
    · simp only [Bool.not_eq_true] at hf
      simp only [hf, Bool.false_eq_true, if_false]
      exact ih _ _

/-- `depLoop` only appends to the event trace. -/
theorem depLoop_events (env : Env) (o : Options) (usl : Bool) (ldp : List PyPath)
    (bd ld : PyPath) :
    ∀ ts survivors deps evs,
      extendsEv evs (depLoop env o usl ldp bd ld ts survivors deps evs).2.2 := by
  intro ts
  induction ts with
  | nil => intro survivors deps evs; exact extendsEv_refl evs
  | cons t ts ih =>
    intro survivors deps evs
    simp only [depLoop]
    cases hcl : env.cleLoad t usl ldp with
    | error e => exact extendsEv_trans (extendsEv_append _ _) (ih _ _ _)
    | ok objs =>
      exact extendsEv_trans (processObjects_events env o bd ld objs deps evs) (ih _ _ _)

/-- `importDeps` only appends to the event trace. -/
theorem importDeps_events (env : Env) (analyze : Bool) :
    ∀ ds evs, extendsEv evs (importDeps env analyze ds evs).events := by
  intro ds
  induction ds with
  | nil => intro evs; exact extendsEv_refl evs
  | cons d ds ih =>
    intro evs
    simp only [importDeps]
    cases ho : env.openProgram d analyze with
    | error e => exact extendsEv_refl evs
    | ok u => exact extendsEv_trans (extendsEv_append _ _) (ih _)

/-- `importTargets` only appends to the event trace. -/
theorem importTargets_events (env : Env) (o : Options) (sd : PyPath) :
    ∀ l evs, extendsEv evs (importTargets env o sd l evs).events := by
  intro l
  induction l with
  | nil => intro evs; exact extendsEv_refl evs
  | cons t ts ih =>
    intro evs
    simp only [importTargets]
    cases ho : env.openProgram t (!o.skip_target_analysis) with
    | error e => exact extendsEv_refl evs
    | ok u =>
      by_cases hdec : o.do_target_decompilation = true
      · simp only [hdec, if_true]
        refine extendsEv_trans ?_ (ih _)
        exact extendsEv_trans (extendsEv_append _ _) (extendsEv_append _ _)
      · simp only [Bool.not_eq_true] at hdec
        simp only [hdec, Bool.false_eq_true, if_false]
        exact extendsEv_trans (extendsEv_append _ _) (ih _)

/-! ## Target-collection lemmas -/

/-- Set insertion preserves duplicate-freedom. -/
theorem insertTarget_nodup {acc : List PyPath} (h : acc.Nodup) (p : PyPath) :
    (insertTarget acc p).Nodup := by
  unfold insertTarget
  by_cases hm : p ∈ acc
  · simpa [hm] using h
  · simp only [hm, if_false]
    rw [List.nodup_append]
    exact ⟨h, List.nodup_singleton p, by
      intro a ha hb
      simp only [List.mem_singleton] at hb
      subst hb
      exact hm ha⟩

/-- The inner collection loop preserves duplicate-freedom of the
accumulated target set. -/
theorem collectExs_ok_nodup (env : Env) (im : Bool) (sr : PyPath) :
    ∀ exs acc evs acc2 evs2, acc.Nodup →
      collectExs env im sr exs acc evs = CollectResult.ok acc2 evs2 → acc2.Nodup := by
  intro exs
  induction exs with
  | nil =>
    intro acc evs acc2 evs2 h hc
    simp only [collectExs, CollectResult.ok.injEq] at hc
    rw [← hc.1]; exact h
  | cons ex rest ih =>
    intro acc evs acc2 evs2 h hc
    simp only [collectExs] at hc
    cases hr : ResolveWithRoot env.fsView (parsePyPath ex) sr with
    | error e => rw [hr] at hc; exact absurd hc (by simp)
    | ok tp =>
      rw [hr] at hc
      by_cases hf : env.isFile tp = true
      · simp only [hf, if_true] at hc
        exact ih _ _ _ _ (insertTarget_nodup h tp) hc
      · simp only [Bool.not_eq_true] at hf
        simp only [hf, Bool.false_eq_true, if_false] at hc
        by_cases him : im = true
        · subst him
          simp only [if_true] at hc
          exact ih _ _ _ _ h hc
        · simp only [Bool.not_eq_true] at him
          subst him
          simp only [Bool.false_eq_true, if_false] at hc
          exact absurd hc (by simp)

/-- The outer collection loop preserves duplicate-freedom. -/
theorem collectLoop_ok_nodup (env : Env) (im : Bool) (sr : PyPath) :
    ∀ ts acc evs acc2 evs2, acc.Nodup →
      collectLoop env im sr ts acc evs = CollectResult.ok acc2 evs2 → acc2.Nodup := by
  intro ts
  induction ts with
  | nil =>
    intro acc evs acc2 evs2 h hc
    simp only [collectLoop, CollectResult.ok.injEq] at hc
    rw [← hc.1]; exact h
  | cons t ts ih =>
    intro acc evs acc2 evs2 h hc
    simp only [collectLoop] at hc
    cases hex : collectExs env im sr
        (env.glob (render (if sr = rootPath then env.resolve (parsePyPath (normpathStr t))
          else sr.join (parsePyPath (lstripChar '/' (lstripChar '.' (normpathStr t)))))))
        acc evs with
    | exc e evs3 => rw [hex] at hc; exact absurd hc (by simp)
    | missing p evs3 => rw [hex] at hc; exact absurd hc (by simp)
    | ok acc3 evs3 =>
      rw [hex] at hc
      exact ih _ _ _ _ (collectExs_ok_nodup env im sr _ _ _ _ _ h hex) hc

/-- A successfully collected target set is duplicate-free. -/
theorem collectTargets_ok_nodup (env : Env) (o : Options) (sr : PyPath)
    {ts : List PyPath} {evs : List Event}
    (hc : collectTargets env o sr = CollectResult.ok ts evs) : ts.Nodup :=
  collectLoop_ok_nodup env o.ignore_missing sr o.targets [] [] ts evs List.nodup_nil hc

/-- A `missing` result of the inner loop means `--ignore-missing` was
not set and the offending resolved target is not a file. -/
theorem collectExs_missing (env : Env) (im : Bool) (sr : PyPath) :
    ∀ exs acc evs p evs2,
      collectExs env im sr exs acc evs = CollectResult.missing p evs2 →
      im = false ∧ env.isFile p = false := by
  intro exs
  induction exs with
  | nil =>
    intro acc evs p evs2 hc
    exact absurd hc (by simp [collectExs])
  | cons ex rest ih =>
    intro acc evs p evs2 hc
    simp only [collectExs] at hc
    cases hr : ResolveWithRoot env.fsView (parsePyPath ex) sr with
    | error e => rw [hr] at hc; exact absurd hc (by simp)
    | ok tp =>
      rw [hr] at hc
      by_cases hf : env.isFile tp = true
      · simp only [hf, if_true] at hc
        exact ih _ _ _ _ hc
      · simp only [Bool.not_eq_true] at hf
        simp only [hf, Bool.false_eq_true, if_false] at hc
        by_cases him : im = true
        · subst him
          simp only [if_true] at hc
          exact ih _ _ _ _ hc
        · simp only [Bool.not_eq_true] at him
          subst him
          simp only [Bool.false_eq_true, if_false, CollectResult.missing.injEq] at hc
          exact ⟨rfl, hc.1 ▸ hf⟩

/-- A `missing` result of the outer loop means `--ignore-missing` was
not set and the offending resolved target is not a file. -/
theorem collectLoop_missing (env : Env) (im : Bool) (sr : PyPath) :
    ∀ ts acc evs p evs2,
      collectLoop env im sr ts acc evs = CollectResult.missing p evs2 →
      im = false ∧ env.isFile p = false := by
  intro ts
  induction ts with
  | nil =>
    intro acc evs p evs2 hc
    exact absurd hc (by simp [collectLoop])
  | cons t ts ih =>
    intro acc evs p evs2 hc
    simp only [collectLoop] at hc
    cases hex : collectExs env im sr
        (env.glob (render (if sr = rootPath then env.resolve (parsePyPath (normpathStr t))
          else sr.join (parsePyPath (lstripChar '/' (lstripChar '.' (normpathStr t)))))))
        acc evs with
    | exc e evs3 => rw [hex] at hc; exact absurd hc (by simp)
    | missing q evs3 =>
      rw [hex] at hc
      simp only [CollectResult.missing.injEq] at hc
      obtain ⟨rfl, rfl⟩ := hc
      exact collectExs_missing env im sr _ _ _ _ _ hex
    | ok acc3 evs3 =>
      rw [hex] at hc
      exact ih _ _ _ _ hc

/-- A `missing` result of target collection implies `--ignore-missing`
was unset and the target path is not a file. -/
theorem collectTargets_missing (env : Env) (o : Options) (sr : PyPath)
    {p : PyPath} {evs : List Event}
    (hc : collectTargets env o sr = CollectResult.missing p evs) :
    o.ignore_missing = false ∧ env.isFile p = false :=
  collectLoop_missing env o.ignore_missing sr o.targets [] [] p evs hc

/-- Events that C5 forbids before the cannot-create exit: the
`pyghidra.start` attempt and any `pyghidra.open_program` import. -/
def isStartOrImport : Event → Bool
  | Event.startPyghidra => true
  | Event.openProgram _ _ => true
  | _ => false

/-- The inner collection loop only logs warnings (when it returns
`ok`): it never starts PyGhidra or imports. -/
theorem collectExs_ok_noStart (env : Env) (im : Bool) (sr : PyPath) :
    ∀ exs acc evs acc2 evs2,
      collectExs env im sr exs acc evs = CollectResult.ok acc2 evs2 →
      (∀ e ∈ evs, isStartOrImport e = false) →
      ∀ e ∈ evs2, isStartOrImport e = false := by
  intro exs
  induction exs with
  | nil =>
    intro acc evs acc2 evs2 hc h
    simp only [collectExs, CollectResult.ok.injEq] at hc
    rw [← hc.2]; exact h
  | cons ex rest ih =>
    intro acc evs acc2 evs2 hc h
    simp only [collectExs] at hc
    cases hr : ResolveWithRoot env.fsView (parsePyPath ex) sr with
    | error e2 => rw [hr] at hc; exact absurd hc (by simp)
    | ok tp =>
      rw [hr] at hc
      by_cases hf : env.isFile tp = true
      · simp only [hf, if_true] at hc
        exact ih _ _ _ _ hc h
      · simp only [Bool.not_eq_true] at hf
        simp only [hf, Bool.false_eq_true, if_false] at hc
        by_cases him : im = true
        · subst him
          simp only [if_true] at hc
          refine ih _ _ _ _ hc ?_
          intro e he
          rcases List.mem_append.mp he with he | he
          · exact h e he
          · simp only [List.mem_singleton] at he
            subst he; rfl
        · simp only [Bool.not_eq_true] at him
          subst him
          simp only [Bool.false_eq_true, if_false] at hc
          exact absurd hc (by simp)

/-- The outer collection loop never starts PyGhidra or imports. -/
theorem collectLoop_ok_noStart (env : Env) (im : Bool) (sr : PyPath) :
    ∀ ts acc evs acc2 evs2,
      collectLoop env im sr ts acc evs = CollectResult.ok acc2 evs2 →
      (∀ e ∈ evs, isStartOrImport e = false) →
      ∀ e ∈ evs2, isStartOrImport e = false := by
  intro ts
  induction ts with
  | nil =>
    intro acc evs acc2 evs2 hc h
    simp only [collectLoop, CollectResult.ok.injEq] at hc
    rw [← hc.2]; exact h
  | cons t ts ih =>
    intro acc evs acc2 evs2 hc h
    simp only [collectLoop] at hc
    cases hex : collectExs env im sr
        (env.glob (render (if sr = rootPath then env.resolve (parsePyPath (normpathStr t))
          else sr.join (parsePyPath (lstripChar '/' (lstripChar '.' (normpathStr t)))))))
        acc evs with
    | exc e evs3 => rw [hex] at hc; exact absurd hc (by simp)
    | missing q evs3 => rw [hex] at hc; exact absurd hc (by simp)
    | ok acc3 evs3 =>
      rw [hex] at hc
      exact ih _ _ _ _ hc (collectExs_ok_noStart env im sr _ _ _ _ _ hex h)

/-- The unlink loops never start PyGhidra or import. -/
theorem unlinkFiles_noStart (env : Env) (v : Bool) (lbl : String) :
    ∀ ps, ∀ e ∈ unlinkFiles env v lbl ps, isStartOrImport e = false := by
  intro ps
  induction ps with
  | nil => intro e he; exact absurd he (by simp [unlinkFiles])
  | cons p ps ih =>
    intro e he
    simp only [unlinkFiles] at he
    rcases List.mem_append.mp he with he | he
    · by_cases hf : env.isFile p = true
      · simp only [hf, if_true] at he
        rcases List.mem_append.mp he with he | he
        · simp only [List.mem_singleton] at he; subst he; rfl
        · by_cases hv : v = true
          · subst hv
            simp only [if_true, List.mem_singleton] at he
            subst he; rfl
          · simp only [Bool.not_eq_true] at hv
            subst hv
            simp only [Bool.false_eq_true, if_false] at he
            exact absurd he (by simp)
      · simp only [Bool.not_eq_true] at hf
        simp only [hf, Bool.false_eq_true, if_false] at he
        exact absurd he (by simp)
    · exact ih e he

/-- The removal phase never starts PyGhidra or imports. -/
theorem removePhase_noStart (env : Env) (o : Options) (pd bd ld : PyPath) :
    ∀ e ∈ removePhase env o pd bd ld, isStartOrImport e = false := by
  intro e he
  unfold removePhase at he
  by_cases h1 : (env.isDir pd && o.force_remove) = true
  · simp only [h1, if_true, List.mem_cons, List.not_mem_nil, or_false] at he
    rcases he with rfl | rfl
    · rfl
    · rfl
  · simp only [Bool.not_eq_true] at h1
    simp only [h1, Bool.false_eq_true, if_false] at he
    by_cases h2 : o.remove_existing_binaries = true
    · simp only [h2, if_true] at he
      rcases List.mem_append.mp he with he | he
      · rcases List.mem_append.mp he with he | he
        · simp only [List.mem_singleton] at he; subst he; rfl
        · by_cases h3 : env.isDir ld = true
          · simp only [h3, if_true] at he
            exact unlinkFiles_noStart env o.verbose "dependency" _ e he
          · simp only [Bool.not_eq_true] at h3
            simp only [h3, Bool.false_eq_true, if_false] at he
            exact absurd he (by simp)
      · by_cases h4 : env.isDir bd = true
        · simp only [h4, if_true] at he
          exact unlinkFiles_noStart env o.verbose "target" _ e he
        · simp only [Bool.not_eq_true] at h4
          simp only [h4, Bool.false_eq_true, if_false] at he
          exact absurd he (by simp)
    · simp only [Bool.not_eq_true] at h2
      simp only [h2, Bool.false_eq_true, if_false] at he
      exact absurd he (by simp)

/-! ## Dependency-loop lemmas -/

/-- The survivor computation of `depLoop` in isolation: walk the
snapshot and erase every target the loader fails on. -/
def dropFailures (env : Env) (usl : Bool) (ldp : List PyPath) :
    List PyPath → List PyPath → List PyPath
  | [], survivors => survivors
  | t :: ts, survivors =>
    match env.cleLoad t usl ldp with
    | Except.error _ => dropFailures env usl ldp ts (survivors.erase t)
    | Except.ok _ => dropFailures env usl ldp ts survivors

/-- The surviving-target component of `depLoop` ignores the directory
arguments, the dependency accumulator and the event trace. -/
theorem depLoop_fst (env : Env) (o : Options) (usl : Bool) (ldp : List PyPath)
    (bd ld : PyPath) :
    ∀ ts survivors deps evs,
      (depLoop env o usl ldp bd ld ts survivors deps evs).1 =
        dropFailures env usl ldp ts survivors := by
  intro ts
  induction ts with
  | nil => intro survivors deps evs; rfl
  | cons t ts ih =>
    intro survivors deps evs
    simp only [depLoop, dropFailures]
    cases hcl : env.cleLoad t usl ldp with
    | error e => exact ih _ _ _
    | ok objs => exact ih _ _ _

/-- Erasing failures from a duplicate-free snapshot keeps exactly the
targets the loader succeeds on. -/
theorem dropFailures_filter (env : Env) (usl : Bool) (ldp : List PyPath) :
    ∀ ts pre, (pre ++ ts).Nodup →
      dropFailures env usl ldp ts (pre ++ ts) =
        pre ++ ts.filter (cleOkWith env usl ldp) := by
  intro ts
  induction ts with
  | nil => intro pre h; simp [dropFailures]
  | cons t ts ih =>
    intro pre h
    have hnotpre : t ∉ pre := by
      rcases (List.nodup_append.mp h) with ⟨_, _, hdisj⟩
      intro hmem
      exact hdisj hmem (List.mem_cons_self t ts)
    simp only [dropFailures]
    cases hcl : env.cleLoad t usl ldp with
    | error e =>
      have herase : (pre ++ t :: ts).erase t = pre ++ ts := by
        rw [List.erase_append_right (t :: ts) hnotpre, List.erase_cons_head]
      rw [herase]
      have hsub : (pre ++ ts).Nodup := by
        refine List.Nodup.sublist ?_ h
        exact List.Sublist.append_left (List.sublist_cons_self t ts) pre
      rw [ih pre hsub]
      have hfil : (t :: ts).filter (cleOkWith env usl ldp) =
          ts.filter (cleOkWith env usl ldp) := by
        simp [List.filter_cons, cleOkWith, hcl]
      rw [hfil]
    | ok objs =>
      have hshape : pre ++ t :: ts = (pre ++ [t]) ++ ts := by simp
      have hnodup2 : ((pre ++ [t]) ++ ts).Nodup := hshape ▸ h
      rw [hshape, ih (pre ++ [t]) hnodup2]
      have hfil : (t :: ts).filter (cleOkWith env usl ldp) =
          t :: ts.filter (cleOkWith env usl ldp) := by
        simp [List.filter_cons, cleOkWith, hcl]
      rw [hfil]
      simp

/-- Every loader failure on a snapshot member is logged by `depLoop`. -/
theorem depLoop_logs (env : Env) (o : Options) (usl : Bool) (ldp : List PyPath)
    (bd ld : PyPath) {t : PyPath} {e : String}
    (he : env.cleLoad t usl ldp = Except.error e) :
    ∀ ts survivors deps evs, t ∈ ts →
      Event.logError e ∈ (depLoop env o usl ldp bd ld ts survivors deps evs).2.2 := by
  intro ts
  induction ts with
  | nil => intro survivors deps evs hmem; exact absurd hmem (by simp)
  | cons t2 ts ih =>
    intro survivors deps evs hmem
    simp only [depLoop]
    rcases List.mem_cons.mp hmem with rfl | hmem2
    · rw [he]
      refine extendsEv_mem (depLoop_events env o usl ldp bd ld ts _ _ _) ?_
      exact List.mem_append_right evs (List.mem_singleton.mpr rfl)
    · cases hcl : env.cleLoad t2 usl ldp with
      | error e2 => exact ih _ _ _ hmem2
      | ok objs => exact ih _ _ _ hmem2

/-! ## Import-loop lemmas -/

/-- When every `open_program` call succeeds, the dependency import
completes, only appending events. -/
theorem importDeps_ok (env : Env) (analyze : Bool)
    (himp : ∀ p a, env.openProgram p a = Except.ok ()) :
    ∀ ds evs, ∃ ex, importDeps env analyze ds evs = StepResult.ok (evs ++ ex) := by
  intro ds
  induction ds with
  | nil => intro evs; exact ⟨[], by simp [importDeps]⟩
  | cons d ds ih =>
    intro evs
    obtain ⟨ex, hex⟩ := ih (evs ++ [Event.openProgram d analyze])
    refine ⟨[Event.openProgram d analyze] ++ ex, ?_⟩
    simp only [importDeps, himp d analyze, hex]
    simp

/-- When every `open_program` call succeeds, the target import
completes, appends events, and records an import event for every
target in the list. -/
theorem importTargets_ok (env : Env) (o : Options) (sd : PyPath)
    (himp : ∀ p a, env.openProgram p a = Except.ok ()) :
    ∀ l evs, ∃ ex, importTargets env o sd l evs = StepResult.ok (evs ++ ex) ∧
      ∀ t ∈ l, Event.openProgram t (!o.skip_target_analysis) ∈ ex := by
  intro l
  induction l with
  | nil => intro evs; exact ⟨[], by simp [importTargets], by simp⟩
  | cons t ts ih =>
    intro evs
    by_cases hdec : o.do_target_decompilation = true
    · obtain ⟨ex, hex, hmem⟩ := ih
        (evs ++ [Event.openProgram t (!o.skip_target_analysis)] ++
          [Event.mkdir (sd.join (parsePyPath t.name)) true true,
           Event.gitInit (sd.join (parsePyPath t.name)),
           Event.decompileTarget t, Event.gitCommit (sd.join (parsePyPath t.name))])
      refine ⟨[Event.openProgram t (!o.skip_target_analysis)] ++
          [Event.mkdir (sd.join (parsePyPath t.name)) true true,
           Event.gitInit (sd.join (parsePyPath t.name)),
           Event.decompileTarget t, Event.gitCommit (sd.join (parsePyPath t.name))] ++ ex,
        ?_, ?_⟩
      · simp only [importTargets, himp t (!o.skip_target_analysis), hdec, if_true, hex]
        simp
      · intro t2 ht2
        rcases List.mem_cons.mp ht2 with rfl | ht3
        · simp
        · simp only [List.mem_append]
          exact Or.inr (hmem t2 ht3)
    · simp only [Bool.not_eq_true] at hdec
      obtain ⟨ex, hex, hmem⟩ := ih
        (evs ++ [Event.openProgram t (!o.skip_target_analysis)])
      refine ⟨[Event.openProgram t (!o.skip_target_analysis)] ++ ex, ?_, ?_⟩
      · simp only [importTargets, himp t (!o.skip_target_analysis), hdec,
          Bool.false_eq_true, if_false, hex]
        simp
      · intro t2 ht2
        rcases List.mem_cons.mp ht2 with rfl | ht3
        · simp
        · simp only [List.mem_append]
          exact Or.inr (hmem t2 ht3)

/-! ## Reduction lemmas for `dragonkickMain` -/

/-- `finishPhase` only appends to the event trace. -/
theorem finishPhase_events (env : Env) (o : Options) (pd sd gp gid : PyPath)
    (survivors deps : List PyPath) (evs : List Event) :
    extendsEv evs (finishPhase env o pd sd gp gid survivors deps evs).events := by
  unfold finishPhase
  by_cases hs : survivors = []
  · rw [if_pos hs]
    exact extendsEv_append _ _
  · rw [if_neg hs]
    have hdeps : extendsEv evs
        ((if (!o.skip_dependency_import) && !deps.isEmpty then
          importDeps env o.do_dependency_analysis deps evs
        else StepResult.ok evs).events) := by
      by_cases hb : ((!o.skip_dependency_import) && !deps.isEmpty) = true
      · rw [if_pos hb]
        exact importDeps_events env o.do_dependency_analysis deps evs
      · rw [if_neg hb]
        exact extendsEv_refl evs
    cases hid : (if (!o.skip_dependency_import) && !deps.isEmpty then
        importDeps env o.do_dependency_analysis deps evs
      else StepResult.ok evs) with
    | exc e evs2 =>
      rw [hid] at hdeps
      exact hdeps
    | ok evs2 =>
      rw [hid] at hdeps
      simp only [StepResult.events] at hdeps
      dsimp only
      have htgt : extendsEv evs2 (importTargets env o sd survivors evs2).events :=
        importTargets_events env o sd survivors evs2
      cases hit : importTargets env o sd survivors evs2 with
      | exc e evs3 =>
        rw [hit] at htgt
        dsimp only [MainResult.events]
        simp only [StepResult.events] at htgt
        exact extendsEv_trans hdeps htgt
      | ok evs3 =>
        rw [hit] at htgt
        simp only [StepResult.events] at htgt
        have hbase : extendsEv evs evs3 := extendsEv_trans hdeps htgt
        dsimp only
        by_cases hg : env.gprAtEnd = true
        · simp only [hg, if_true, MainResult.events]
          exact extendsEv_trans hbase (extendsEv_append3 _ _ _ _)
        · simp only [Bool.not_eq_true] at hg
          simp only [hg, Bool.false_eq_true, if_false, MainResult.events]
          exact extendsEv_trans hbase (extendsEv_append2 _ _ _)

/-- `importAndFinish` only appends to the event trace. -/
theorem importAndFinish_events (env : Env) (o : Options) (pd sd gp gid : PyPath)
    (survivors deps : List PyPath) (evs0 : List Event) :
    extendsEv evs0 (importAndFinish env o pd sd gp gid survivors deps evs0).events := by
  unfold importAndFinish
  refine extendsEv_trans ?_ (finishPhase_events env o pd sd gp gid survivors deps _)
  exact extendsEv_append3 _ _ _ _

/-- `startedBody`'s result always carries the initial events and the
header (with its four `mkdir` calls). -/
theorem startedBody_events (env : Env) (o : Options) (sr : PyPath)
    (targets : List PyPath) (pd bd ld sd gp gid : PyPath) (evs0 : List Event) :
    extendsEv
      (evs0 ++ startedHeader env o sr pd bd ld sd gid)
      (startedBody env o sr targets pd bd ld sd gp gid evs0).events := by
  unfold startedBody
  dsimp only
  exact extendsEv_trans
    (extendsEv_trans (extendsEv_append2 _ _ _)
      (depLoop_events env o (useSystemLibsOf sr) (ldPathOf sr) bd ld targets targets [] _))
    (importAndFinish_events env o pd sd gp gid _ _ _)

/-- When the sysroot exists and collection succeeds, `main` proceeds to
`afterCollect`. -/
theorem main_eq_afterCollect (env : Env) (o : Options) {ts : List PyPath}
    {evs : List Event}
    (hd : env.isDir (sysrootOf env o) = true)
    (hc : collectTargets env o (sysrootOf env o) = CollectResult.ok ts evs) :
    dragonkickMain env o = afterCollect env o (sysrootOf env o) ts evs := by
  simp [dragonkickMain, hd, hc]

/-- Under `reachesStarted`, `main` proceeds to `startedBody` with the
post-gate event trace. -/
theorem main_eq_startedBody (env : Env) (o : Options) {ts : List PyPath}
    {evs : List Event} (h : reachesStarted env o ts evs) :
    dragonkickMain env o =
      startedBody env o (sysrootOf env o) ts (projectDirOf o) (binDirOf o) (libDirOf o)
        (srcDirOf o) (gprOf o) (ghidraInstallDirOf env o)
        ((evs ++ removePhase env o (projectDirOf o) (binDirOf o) (libDirOf o)) ++
          [Event.setGhidraInstallDir (render (ghidraInstallDirOf env o)),
           Event.startPyghidra]) := by
  obtain ⟨hd, hc, hgate, hso, hst⟩ := h
  have hgb : (env.gprAtCheck && !o.force_import) = false := by
    rcases hgate with h | h <;> simp [h]
  rw [main_eq_afterCollect env o hd hc]
  simp [afterCollect, hgb, hso, hst]

/-! ## Claims about `main`: C5, C6, C7 -/

/-- C5: if the Ghidra project file already exists and `--force-import`
is not given, `main` logs an error and returns `EX_CANTCREAT` (73)
before starting Ghidra or importing anything. -/
theorem claim_C5 (env : Env) (o : Options) (ts : List PyPath) (evs : List Event)
    (hd : env.isDir (sysrootOf env o) = true)
    (hc : collectTargets env o (sysrootOf env o) = CollectResult.ok ts evs)
    (hg : env.gprAtCheck = true)
    (hf : o.force_import = false) :
    dragonkickMain env o =
      MainResult.ret (some EX_CANTCREAT)
        ((evs ++ removePhase env o (projectDirOf o) (binDirOf o) (libDirOf o)) ++
          [Event.logError ("Ghidra project " ++ render (env.resolve (gprOf o))
            ++ " already exists, use -f to force re-importing binaries")])
    ∧ Event.startPyghidra ∉ (dragonkickMain env o).events
    ∧ (∀ q a, Event.openProgram q a ∉ (dragonkickMain env o).events) := by
  have hmain : dragonkickMain env o =
      MainResult.ret (some EX_CANTCREAT)
        ((evs ++ removePhase env o (projectDirOf o) (binDirOf o) (libDirOf o)) ++
          [Event.logError ("Ghidra project " ++ render (env.resolve (gprOf o))
            ++ " already exists, use -f to force re-importing binaries")]) := by
    rw [main_eq_afterCollect env o hd hc]
    simp [afterCollect, hg, hf]
  have hnostart : ∀ e ∈ (dragonkickMain env o).events, isStartOrImport e = false := by
    intro e he
    rw [hmain] at he
    simp only [MainResult.events] at he
    rcases List.mem_append.mp he with he | he
    · rcases List.mem_append.mp he with he | he
      · exact collectLoop_ok_noStart env o.ignore_missing (sysrootOf env o)
          o.targets [] [] ts evs hc
          (by intro e2 he2; exact absurd he2 (List.not_mem_nil e2)) e he
      · exact removePhase_noStart env o _ _ _ e he
    · simp only [List.mem_singleton] at he
      subst he; rfl
  refine ⟨hmain, ?_, ?_⟩
  · intro hmem
    have := hnostart _ hmem
    simp [isStartOrImport] at this
  · intro q a hmem
    have := hnostart _ hmem
    simp [isStartOrImport] at this

/-- A benign filesystem-and-oracle world: one existing regular file per
query, no symlinks, loads and imports succeed. -/
def envW : Env :=
  { isDir := fun _ => true
    isFile := fun _ => true
    isSymlink := fun _ => false
    readlink := fun p => p
    resolve := fun p => p
    glob := fun s => [s]
    iterdir := fun _ => []
    gprAtCheck := false
    envGhidraInstallDir := none
    startOutcome := StartOutcome.ok
    started := true
    ghidraVersion := "11.2"
    cleLoad := fun _ _ _ => Except.ok []
    openProgram := fun _ _ => Except.ok ()
    zipView := { isDir := fun _ => true, rglob := fun _ => [], resolve := fun p => p }
    gprAtEnd := true }

/-- A minimal invocation: one target, project name `p`, all flags off. -/
def optsW : Options :=
  { targets := ["/bin/ls"]
    verbose := false
    copy_to_project := false
    force_remove := false
    force_import := false
    project_name := "p"
    project_dir := none
    remove_existing_binaries := false
    start_ghidra := false
    zip_project := false
    skip_dependency_import := false
    skip_target_analysis := false
    do_dependency_analysis := false
    do_target_decompilation := false
    ignore_missing := false
    sysroot := rootPath
    ghidra_install_dir := none }

/-- The world of `envW` with the Ghidra project file already present. -/
def envC5 : Env := { envW with gprAtCheck := true }

/-- Witness for C5 at a concrete world. -/
theorem claim_C5_witness :
    (∃ tr, dragonkickMain envC5 optsW = MainResult.ret (some EX_CANTCREAT) tr)
    ∧ Event.startPyghidra ∉ (dragonkickMain envC5 optsW).events := by
  have h := claim_C5 envC5 optsW [⟨true, ["bin", "ls"]⟩] [] rfl (by decide) rfl rfl
  exact ⟨⟨_, h.1⟩, h.2.1⟩

/-- C6: a `ValueError` from `pyghidra.start()` is logged and mapped to
`EX_UNAVAILABLE` (69); any other exception is logged and mapped to
`EX_SOFTWARE` (70). -/
theorem claim_C6 (env : Env) (o : Options) (ts : List PyPath) (evs : List Event)
    (hd : env.isDir (sysrootOf env o) = true)
    (hc : collectTargets env o (sysrootOf env o) = CollectResult.ok ts evs)
    (hgate : env.gprAtCheck = false ∨ o.force_import = true) :
    (∀ e, env.startOutcome = StartOutcome.valueError e →
      ∃ tr, dragonkickMain env o = MainResult.ret (some EX_UNAVAILABLE) tr ∧
        Event.logError e ∈ tr)
    ∧ (∀ e, env.startOutcome = StartOutcome.otherError e →
      ∃ tr, dragonkickMain env o = MainResult.ret (some EX_SOFTWARE) tr ∧
        Event.logError e ∈ tr) := by
  have hgb : (env.gprAtCheck && !o.force_import) = false := by
    rcases hgate with h | h <;> simp [h]
  constructor
  · intro e hs
    refine ⟨((evs ++ removePhase env o (projectDirOf o) (binDirOf o) (libDirOf o)) ++
        [Event.setGhidraInstallDir (render (ghidraInstallDirOf env o)),
         Event.startPyghidra]) ++
        [Event.logError ("Starting Ghidra from " ++ render (ghidraInstallDirOf env o)),
         Event.logError e], ?_, ?_⟩
    · rw [main_eq_afterCollect env o hd hc]
      simp [afterCollect, hgb, hs]
    · simp
  · intro e hs
    refine ⟨((evs ++ removePhase env o (projectDirOf o) (binDirOf o) (libDirOf o)) ++
        [Event.setGhidraInstallDir (render (ghidraInstallDirOf env o)),
         Event.startPyghidra]) ++
        [Event.logError ("Starting Ghidra from " ++ render (ghidraInstallDirOf env o)),
         Event.logError e], ?_, ?_⟩
    · rw [main_eq_afterCollect env o hd hc]
      simp [afterCollect, hgb, hs]
    · simp

/-- The world of `envW` where `pyghidra.start()` raises `ValueError`. -/
def envC6v : Env := { envW with startOutcome := StartOutcome.valueError "no ghidra" }

/-- The world of `envW` where `pyghidra.start()` raises another
exception. -/
def envC6s : Env := { envW with startOutcome := StartOutcome.otherError "jvm crash" }

/-- Witness for C6 at two concrete worlds. -/
theorem claim_C6_witness :
    (∃ tr, dragonkickMain envC6v optsW = MainResult.ret (some EX_UNAVAILABLE) tr)
    ∧ (∃ tr, dragonkickMain envC6s optsW = MainResult.ret (some EX_SOFTWARE) tr) := by
  obtain ⟨tr1, h1, _⟩ :=
    (claim_C6 envC6v optsW [⟨true, ["bin", "ls"]⟩] [] rfl (by decide)
      (Or.inl rfl)).1 "no ghidra" rfl
  obtain ⟨tr2, h2, _⟩ :=
    (claim_C6 envC6s optsW [⟨true, ["bin", "ls"]⟩] [] rfl (by decide)
      (Or.inl rfl)).2 "jvm crash" rfl
  exact ⟨⟨tr1, h1⟩, ⟨tr2, h2⟩⟩

/-- C7: after PyGhidra starts, `main` creates the project directory and
its `bin/`, `lib/` and `src/` subdirectories, all with
`exist_ok=True` (and without `parents`), so pre-existing directories
and their contents are kept. -/
theorem claim_C7 (env : Env) (o : Options) (ts : List PyPath) (evs : List Event)
    (h : reachesStarted env o ts evs) :
    Event.mkdir (projectDirOf o) false true ∈ (dragonkickMain env o).events
    ∧ Event.mkdir (binDirOf o) false true ∈ (dragonkickMain env o).events
    ∧ Event.mkdir (libDirOf o) false true ∈ (dragonkickMain env o).events
    ∧ Event.mkdir (srcDirOf o) false true ∈ (dragonkickMain env o).events := by
  rw [main_eq_startedBody env o h]
  have hext := startedBody_events env o (sysrootOf env o) ts (projectDirOf o) (binDirOf o)
    (libDirOf o) (srcDirOf o) (gprOf o) (ghidraInstallDirOf env o)
    ((evs ++ removePhase env o (projectDirOf o) (binDirOf o) (libDirOf o)) ++
      [Event.setGhidraInstallDir (render (ghidraInstallDirOf env o)),
       Event.startPyghidra])
  refine ⟨extendsEv_mem hext ?_, extendsEv_mem hext ?_,
    extendsEv_mem hext ?_, extendsEv_mem hext ?_⟩ <;>
      simp [startedHeader]

/-- Witness for C7 at a concrete world. -/
theorem claim_C7_witness :
    Event.mkdir (projectDirOf optsW) false true ∈ (dragonkickMain envW optsW).events
    ∧ Event.mkdir (binDirOf optsW) false true ∈ (dragonkickMain envW optsW).events
    ∧ Event.mkdir (libDirOf optsW) false true ∈ (dragonkickMain envW optsW).events
    ∧ Event.mkdir (srcDirOf optsW) false true ∈ (dragonkickMain envW optsW).events :=
  claim_C7 envW optsW [⟨true, ["bin", "ls"]⟩] []
    ⟨rfl, by decide, Or.inl rfl, rfl, rfl⟩

/-! ## Claim C2: the `EX_NOINPUT` iff -/

/-- The tail of the started body returns `EX_NOINPUT` exactly when the
surviving target set is empty. -/
theorem finishPhase_ret66_iff (env : Env) (o : Options) (pd sd gp gid : PyPath)
    (survivors deps : List PyPath) (evs : List Event) :
    (∃ tr, finishPhase env o pd sd gp gid survivors deps evs =
      MainResult.ret (some EX_NOINPUT) tr) ↔ survivors = [] := by
  constructor
  · rintro ⟨tr, htr⟩
    by_contra hs
    unfold finishPhase at htr
    rw [if_neg hs] at htr
    cases hid : (if (!o.skip_dependency_import) && !deps.isEmpty then
        importDeps env o.do_dependency_analysis deps evs else StepResult.ok evs) with
    | exc e evs2 =>
      rw [hid] at htr
      exact absurd htr (by simp)
    | ok evs2 =>
      rw [hid] at htr
      dsimp only at htr
      cases hit : importTargets env o sd survivors evs2 with
      | exc e evs3 =>
        rw [hit] at htr
        exact absurd htr (by simp)
      | ok evs3 =>
        rw [hit] at htr
        dsimp only at htr
        by_cases hg : env.gprAtEnd = true
        · simp [hg, EX_NOINPUT] at htr
        · simp only [Bool.not_eq_true] at hg
          simp [hg, EX_NOINPUT, EX_UNAVAILABLE] at htr
  · intro hs
    refine ⟨evs ++ [Event.logError "No target to import"], ?_⟩
    unfold finishPhase
    rw [if_pos hs]

/-- Lift of `finishPhase_ret66_iff` over the count logs. -/
theorem importAndFinish_ret66_iff (env : Env) (o : Options) (pd sd gp gid : PyPath)
    (survivors deps : List PyPath) (evs0 : List Event) :
    (∃ tr, importAndFinish env o pd sd gp gid survivors deps evs0 =
      MainResult.ret (some EX_NOINPUT) tr) ↔ survivors = [] := by
  unfold importAndFinish
  exact finishPhase_ret66_iff env o pd sd gp gid survivors deps _

/-- The started body returns `EX_NOINPUT` exactly when no collected
target survives the external loader. -/
theorem startedBody_ret66_iff (env : Env) (o : Options) (sr : PyPath)
    (ts : List PyPath) (pd bd ld sd gp gid : PyPath) (evs0 : List Event)
    (hnodup : ts.Nodup) :
    (∃ tr, startedBody env o sr ts pd bd ld sd gp gid evs0 =
      MainResult.ret (some EX_NOINPUT) tr) ↔ importSet env sr ts = [] := by
  unfold startedBody
  dsimp only
  rw [importAndFinish_ret66_iff]
  rw [depLoop_fst]
  have hdf := dropFailures_filter env (useSystemLibsOf sr) (ldPathOf sr) ts []
    (by simpa using hnodup)
  simp only [List.nil_append] at hdf
  rw [hdf]
  exact Iff.rfl

/-- C2: `main` returns `EX_NOINPUT` (66) in exactly these situations:
the resolved sysroot is not a directory; a resolved target path is not a
file while `--ignore-missing` is not set (a `missing` collection
result); or, after dependency resolution, the set of targets to import
is empty. -/
theorem claim_C2 (env : Env) (o : Options) :
    (∃ tr, dragonkickMain env o = MainResult.ret (some EX_NOINPUT) tr) ↔
      (env.isDir (sysrootOf env o) = false
        ∨ (env.isDir (sysrootOf env o) = true ∧
            ∃ p evs, collectTargets env o (sysrootOf env o) = CollectResult.missing p evs ∧
              o.ignore_missing = false ∧ env.isFile p = false)
        ∨ (env.isDir (sysrootOf env o) = true ∧
            ∃ ts evs, collectTargets env o (sysrootOf env o) = CollectResult.ok ts evs ∧
              (env.gprAtCheck = false ∨ o.force_import = true) ∧
              env.startOutcome = StartOutcome.ok ∧ env.started = true ∧
              importSet env (sysrootOf env o) ts = [])) := by
  by_cases hd : env.isDir (sysrootOf env o) = true
  · cases hcr : collectTargets env o (sysrootOf env o) with
    | exc e evs =>
      have hm : dragonkickMain env o = MainResult.exc e evs := by
        simp [dragonkickMain, hd, hcr]
      constructor
      · rintro ⟨tr, htr⟩
        rw [hm] at htr
        exact absurd htr (by simp)
      · rintro (h | ⟨_, p, evs2, hmiss, _, _⟩ | ⟨_, ts2, evs2, hok, _, _, _, _⟩)
        · exact absurd hd (by simp [h])
        · exact absurd hmiss (by simp)
        · exact absurd hok (by simp)
    | missing p evs =>
      have hm : dragonkickMain env o = MainResult.ret (some EX_NOINPUT) evs := by
        simp [dragonkickMain, hd, hcr]
      have hinv := collectTargets_missing env o (sysrootOf env o) hcr
      constructor
      · intro _
        exact Or.inr (Or.inl ⟨hd, p, evs, rfl, hinv.1, hinv.2⟩)
      · intro _
        exact ⟨evs, hm⟩
    | ok ts evs =>
      have hm := main_eq_afterCollect env o hd hcr
      by_cases hgb : (env.gprAtCheck && !o.force_import) = true
      · have hm73 : dragonkickMain env o =
            MainResult.ret (some EX_CANTCREAT)
              ((evs ++ removePhase env o (projectDirOf o) (binDirOf o) (libDirOf o)) ++
                [Event.logError ("Ghidra project " ++ render (env.resolve (gprOf o))
                  ++ " already exists, use -f to force re-importing binaries")]) := by
          rw [hm]
          simp [afterCollect, hgb]
        constructor
        · rintro ⟨tr, htr⟩
          rw [hm73] at htr
          simp [EX_CANTCREAT, EX_NOINPUT] at htr
        · rintro (h | ⟨_, p, evs2, hmiss, _, _⟩ | ⟨_, ts2, evs2, hok, hgate, _, _, _⟩)
          · exact absurd hd (by simp [h])
          · exact absurd hmiss (by simp)
          · rcases hgate with hgate | hgate <;> rw [hgate] at hgb <;> simp at hgb
      · simp only [Bool.not_eq_true] at hgb
        have hgate : env.gprAtCheck = false ∨ o.force_import = true := by
          cases hgpr : env.gprAtCheck with
          | false => exact Or.inl rfl
          | true =>
            cases hfi : o.force_import with
            | true => exact Or.inr rfl
            | false => rw [hgpr, hfi] at hgb; simp at hgb
        cases hso : env.startOutcome with
        | valueError e =>
          have hm69 : dragonkickMain env o =
              MainResult.ret (some EX_UNAVAILABLE)
                (((evs ++ removePhase env o (projectDirOf o) (binDirOf o) (libDirOf o)) ++
                  [Event.setGhidraInstallDir (render (ghidraInstallDirOf env o)),
                   Event.startPyghidra]) ++
                  [Event.logError ("Starting Ghidra from "
                    ++ render (ghidraInstallDirOf env o)), Event.logError e]) := by
            rw [hm]
            simp [afterCollect, hgb, hso]
          constructor
          · rintro ⟨tr, htr⟩
            rw [hm69] at htr
            simp [EX_UNAVAILABLE, EX_NOINPUT] at htr
          · rintro (h | ⟨_, p, evs2, hmiss, _, _⟩ | ⟨_, ts2, evs2, hok, _, hso2, _, _⟩)
            · exact absurd hd (by simp [h])
            · exact absurd hmiss (by simp)
            · exact absurd hso2 (by simp)
        | otherError e =>
          have hm70 : dragonkickMain env o =
              MainResult.ret (some EX_SOFTWARE)
                (((evs ++ removePhase env o (projectDirOf o) (binDirOf o) (libDirOf o)) ++
                  [Event.setGhidraInstallDir (render (ghidraInstallDirOf env o)),
                   Event.startPyghidra]) ++
                  [Event.logError ("Starting Ghidra from "
                    ++ render (ghidraInstallDirOf env o)), Event.logError e]) := by
            rw [hm]
            simp [afterCollect, hgb, hso]
          constructor
          · rintro ⟨tr, htr⟩
            rw [hm70] at htr
            simp [EX_SOFTWARE, EX_NOINPUT] at htr
          · rintro (h | ⟨_, p, evs2, hmiss, _, _⟩ | ⟨_, ts2, evs2, hok, _, hso2, _, _⟩)
            · exact absurd hd (by simp [h])
            · exact absurd hmiss (by simp)
            · exact absurd hso2 (by simp)
        | ok =>
          by_cases hst : env.started = true
          · have hreach : reachesStarted env o ts evs := ⟨hd, hcr, hgate, hso, hst⟩
            have hnodup := collectTargets_ok_nodup env o (sysrootOf env o) hcr
            rw [main_eq_startedBody env o hreach]
            rw [startedBody_ret66_iff env o (sysrootOf env o) ts (projectDirOf o)
              (binDirOf o) (libDirOf o) (srcDirOf o) (gprOf o) (ghidraInstallDirOf env o)
              _ hnodup]
            constructor
            · intro hempty
              exact Or.inr (Or.inr ⟨hd, ts, evs, rfl, hgate, rfl, hst, hempty⟩)
            · rintro (h | ⟨_, p, evs2, hmiss, _, _⟩ | ⟨_, ts2, evs2, hok, _, _, _, hempty⟩)
              · exact absurd hd (by simp [h])
              · exact absurd hmiss (by simp)
              · simp only [CollectResult.ok.injEq] at hok
                obtain ⟨rfl, rfl⟩ := hok
                exact hempty
          · simp only [Bool.not_eq_true] at hst
            have hmn : dragonkickMain env o =
                MainResult.ret none
                  ((evs ++ removePhase env o (projectDirOf o) (binDirOf o) (libDirOf o)) ++
                    [Event.setGhidraInstallDir (render (ghidraInstallDirOf env o)),
                     Event.startPyghidra]) := by
              rw [hm]
              simp [afterCollect, hgb, hso, hst]
            constructor
            · rintro ⟨tr, htr⟩
              rw [hmn] at htr
              simp at htr
            · rintro (h | ⟨_, p, evs2, hmiss, _, _⟩ | ⟨_, ts2, evs2, hok, _, _, hst2, _⟩)
              · exact absurd hd (by simp [h])
              · exact absurd hmiss (by simp)
              · rw [hst] at hst2; exact absurd hst2 (by simp)
  · simp only [Bool.not_eq_true] at hd
    constructor
    · intro _
      exact Or.inl hd
    · intro _
      exact ⟨[Event.logError ("Sysroot " ++ render (sysrootOf env o) ++ " does not exist")],
        by simp [dragonkickMain, hd]⟩

/-! ## The successful-import path -/

/-- When every `open_program` call succeeds and some target survived,
the finish phase completes with a normal return: the incoming events,
one import event per surviving target and the zip-phase events are all
in the final trace, and the exit code is `0` whenever the project file
exists at the end. -/
theorem finishPhase_success (env : Env) (o : Options) (pd sd gp gid : PyPath)
    (survivors deps : List PyPath) (evsB : List Event)
    (himp : ∀ p a, env.openProgram p a = Except.ok ())
    (hne : survivors ≠ []) :
    ∃ code tr, finishPhase env o pd sd gp gid survivors deps evsB =
        MainResult.ret (some code) tr
      ∧ (∀ e2 ∈ evsB, e2 ∈ tr)
      ∧ (∀ t2 ∈ survivors, Event.openProgram t2 (!o.skip_target_analysis) ∈ tr)
      ∧ (∀ z ∈ zipPhase env o pd o.project_name, z ∈ tr)
      ∧ (env.gprAtEnd = true → code = 0) := by
  have hdi : ∃ evs2, (if (!o.skip_dependency_import) && !deps.isEmpty then
      importDeps env o.do_dependency_analysis deps evsB
    else StepResult.ok evsB) = StepResult.ok evs2 ∧ extendsEv evsB evs2 := by
    by_cases hb : ((!o.skip_dependency_import) && !deps.isEmpty) = true
    · obtain ⟨ex, hex⟩ := importDeps_ok env o.do_dependency_analysis himp deps evsB
      exact ⟨evsB ++ ex, by rw [if_pos hb, hex], extendsEv_append _ _⟩
    · exact ⟨evsB, by rw [if_neg hb], extendsEv_refl _⟩
  obtain ⟨evs2, hdi, hext1⟩ := hdi
  obtain ⟨ex, hit, hmem⟩ := importTargets_ok env o sd himp survivors evs2
  unfold finishPhase
  rw [if_neg hne, hdi]
  dsimp only
  rw [hit]
  dsimp only
  by_cases hg : env.gprAtEnd = true
  · rw [if_pos hg]
    refine ⟨0, _, rfl, ?_, ?_, ?_, fun _ => rfl⟩
    · intro e2 he2
      simp only [List.mem_append]
      exact Or.inl (Or.inl (Or.inl (Or.inl (extendsEv_mem hext1 he2))))
    · intro t2 ht2
      simp only [List.mem_append]
      exact Or.inl (Or.inl (Or.inl (Or.inr (hmem t2 ht2))))
    · intro z hz
      simp only [List.mem_append]
      exact Or.inl (Or.inl (Or.inr hz))
  · rw [if_neg hg]
    simp only [Bool.not_eq_true] at hg
    refine ⟨EX_UNAVAILABLE, _, rfl, ?_, ?_, ?_, fun hgg => absurd hgg (by simp [hg])⟩
    · intro e2 he2
      simp only [List.mem_append]
      exact Or.inl (Or.inl (Or.inl (extendsEv_mem hext1 he2)))
    · intro t2 ht2
      simp only [List.mem_append]
      exact Or.inl (Or.inl (Or.inr (hmem t2 ht2)))
    · intro z hz
      simp only [List.mem_append]
      exact Or.inl (Or.inr hz)

/-- Lift of `finishPhase_success` through the dependency loop: under a
successful import bridge, `startedBody` returns normally, imports every
member of the import set, performs the zip phase, logs every loader
failure, and exits `0` when the project file exists at the end. -/
theorem startedBody_success (env : Env) (o : Options) (sr : PyPath)
    (ts : List PyPath) (pd bd ld sd gp gid : PyPath) (evs0 : List Event)
    (himp : ∀ p a, env.openProgram p a = Except.ok ())
    (hnodup : ts.Nodup)
    (hne : importSet env sr ts ≠ []) :
    ∃ code tr, startedBody env o sr ts pd bd ld sd gp gid evs0 =
        MainResult.ret (some code) tr
      ∧ (∀ t2 ∈ importSet env sr ts,
          Event.openProgram t2 (!o.skip_target_analysis) ∈ tr)
      ∧ (∀ z ∈ zipPhase env o pd o.project_name, z ∈ tr)
      ∧ (∀ t e, t ∈ ts →
          env.cleLoad t (useSystemLibsOf sr) (ldPathOf sr) = Except.error e →
          Event.logError e ∈ tr)
      ∧ (env.gprAtEnd = true → code = 0) := by
  unfold startedBody
  dsimp only
  rw [depLoop_fst]
  have hdf := dropFailures_filter env (useSystemLibsOf sr) (ldPathOf sr) ts []
    (by simpa using hnodup)
  simp only [List.nil_append] at hdf
  rw [hdf]
  unfold importAndFinish
  dsimp only
  obtain ⟨code, tr, heq, hin, himports, hzips, hcode⟩ :=
    finishPhase_success env o pd sd gp gid
      (ts.filter (cleOkWith env (useSystemLibsOf sr) (ldPathOf sr)))
      (depLoop env o (useSystemLibsOf sr) (ldPathOf sr) bd ld ts ts []
        ((evs0 ++ startedHeader env o sr pd bd ld sd gid ++
          (if o.copy_to_project = true then
            [Event.logInfo "Saving binaries under project tree"] else [])) ++
          (if o.skip_dependency_import = true then
            [Event.logInfo "[yellow]Skipping target dependency import"]
          else
            [Event.logInfo ("Resolving dependency for targets " ++ joinSlash o.targets)]))).2.1
      _ himp hne
  refine ⟨code, tr, heq, himports, hzips, ?_, hcode⟩
  intro t e ht he
  refine hin _ ?_
  refine extendsEv_mem (extendsEv_append2 _ _ _) ?_
  refine extendsEv_mem (extendsEv_append _ _) ?_
  exact depLoop_logs env o (useSystemLibsOf sr) (ldPathOf sr) bd ld he ts ts [] _ ht

/-! ## Claim C1 (corrected) and claim C10 -/

/-- The world of `envW` where the analysis bridge fails every
`open_program` call. -/
def envC1x : Env := { envW with openProgram := fun _ _ => Except.error "import failed" }

/-- Counterexample to C1 as stated: an error raised by the analysis
bridge (`pyghidra.open_program`) during target import is NOT caught and
mapped to an exit code — it propagates out of `main` as an uncaught
exception, so `main` produces no return value at all. -/
theorem claim_C1_counterexample :
    (∃ tr, dragonkickMain envC1x optsW = MainResult.exc "import failed" tr)
    ∧ (∀ code tr, dragonkickMain envC1x optsW ≠ MainResult.ret code tr) := by
  obtain ⟨tr0, h0⟩ : ∃ tr0, dragonkickMain envC1x optsW = MainResult.exc "import failed" tr0 :=
    ⟨_, rfl⟩
  refine ⟨⟨tr0, h0⟩, ?_⟩
  intro code tr hcontra
  rw [h0] at hcontra
  exact absurd hcontra (by simp)

/-- C1 (amended): during dependency-set construction, a `cle.Loader`
exception on a target is caught and logged, the target is removed from
the import set, and the remaining targets are still processed — the run
completes with a normal return when the bridge calls succeed.
(Exceptions raised by the analysis bridge itself during import are not
caught; see the counterexample.) -/
theorem claim_C1_amended (env : Env) (o : Options) (ts : List PyPath)
    (evs : List Event) (t : PyPath) (e : String)
    (h : reachesStarted env o ts evs)
    (ht : t ∈ ts)
    (he : env.cleLoad t (useSystemLibsOf (sysrootOf env o))
      (ldPathOf (sysrootOf env o)) = Except.error e)
    (himp : ∀ p a, env.openProgram p a = Except.ok ())
    (hne : importSet env (sysrootOf env o) ts ≠ []) :
    Event.logError e ∈ (dragonkickMain env o).events
    ∧ t ∉ importSet env (sysrootOf env o) ts
    ∧ (∀ t2 ∈ importSet env (sysrootOf env o) ts,
        Event.openProgram t2 (!o.skip_target_analysis) ∈ (dragonkickMain env o).events)
    ∧ (∃ code tr, dragonkickMain env o = MainResult.ret (some code) tr) := by
  have hnodup := collectTargets_ok_nodup env o (sysrootOf env o) h.2.1
  rw [main_eq_startedBody env o h]
  obtain ⟨code, tr, heq, himports, _, hlogs, _⟩ :=
    startedBody_success env o (sysrootOf env o) ts (projectDirOf o) (binDirOf o)
      (libDirOf o) (srcDirOf o) (gprOf o) (ghidraInstallDirOf env o)
      ((evs ++ removePhase env o (projectDirOf o) (binDirOf o) (libDirOf o)) ++
        [Event.setGhidraInstallDir (render (ghidraInstallDirOf env o)),
         Event.startPyghidra])
      himp hnodup hne
  rw [heq]
  refine ⟨hlogs t e ht he, ?_, ?_, ⟨code, tr, rfl⟩⟩
  · intro hmem
    have hfl := (List.mem_filter.mp hmem).2
    simp [cleOk, cleOkWith, he] at hfl
  · intro t2 ht2
    exact himports t2 ht2

/-- A two-target world where the loader fails on `/bin/cp` but succeeds
on `/bin/ls`. -/
def envC1w : Env :=
  { envW with cleLoad := fun t _ _ =>
      if t = ⟨true, ["bin", "cp"]⟩ then Except.error "cle failed" else Except.ok [] }

/-- A two-target invocation for the C1 witness. -/
def optsC1 : Options := { optsW with targets := ["/bin/ls", "/bin/cp"] }

/-- Witness for the amended C1 at a concrete world: `/bin/cp` fails to
load, is logged and dropped, `/bin/ls` is still imported and the run
returns normally. -/
theorem claim_C1_amended_witness :
    Event.logError "cle failed" ∈ (dragonkickMain envC1w optsC1).events
    ∧ PyPath.mk true ["bin", "cp"] ∉
        importSet envC1w (sysrootOf envC1w optsC1)
          [⟨true, ["bin", "ls"]⟩, ⟨true, ["bin", "cp"]⟩]
    ∧ (∀ t2 ∈ importSet envC1w (sysrootOf envC1w optsC1)
          [⟨true, ["bin", "ls"]⟩, ⟨true, ["bin", "cp"]⟩],
        Event.openProgram t2 (!optsC1.skip_target_analysis) ∈
          (dragonkickMain envC1w optsC1).events)
    ∧ (∃ code tr, dragonkickMain envC1w optsC1 = MainResult.ret (some code) tr) :=
  claim_C1_amended envC1w optsC1
    [⟨true, ["bin", "ls"]⟩, ⟨true, ["bin", "cp"]⟩] [] ⟨true, ["bin", "cp"]⟩
    "cle failed"
    ⟨rfl, by decide, Or.inl rfl, rfl, rfl⟩
    (by decide) rfl (fun _ _ => rfl) (by decide)

/-- C10: when `--zip-project` is set and `ZipProject` raises, the
failure is caught and logged and does not alter `main`'s return value:
with the Ghidra project file present at the end, `main` still returns
`0`. -/
theorem claim_C10 (env : Env) (o : Options) (ts : List PyPath)
    (evs : List Event) (e : String)
    (h : reachesStarted env o ts evs)
    (himp : ∀ p a, env.openProgram p a = Except.ok ())
    (hne : importSet env (sysrootOf env o) ts ≠ [])
    (hz : o.zip_project = true)
    (hzf : ZipProject env.zipView (projectDirOf o) o.project_name = Except.error e)
    (hge : env.gprAtEnd = true) :
    ∃ tr, dragonkickMain env o = MainResult.ret (some 0) tr
      ∧ Event.logError ("Failed to zip " ++ render (projectDirOf o)) ∈ tr
      ∧ Event.logError e ∈ tr := by
  have hnodup := collectTargets_ok_nodup env o (sysrootOf env o) h.2.1
  rw [main_eq_startedBody env o h]
  obtain ⟨code, tr, heq, _, hzips, _, hcode⟩ :=
    startedBody_success env o (sysrootOf env o) ts (projectDirOf o) (binDirOf o)
      (libDirOf o) (srcDirOf o) (gprOf o) (ghidraInstallDirOf env o)
      ((evs ++ removePhase env o (projectDirOf o) (binDirOf o) (libDirOf o)) ++
        [Event.setGhidraInstallDir (render (ghidraInstallDirOf env o)),
         Event.startPyghidra])
      himp hnodup hne
  rw [heq, hcode hge]
  have hzp : zipPhase env o (projectDirOf o) o.project_name =
      [Event.logError ("Failed to zip " ++ render (projectDirOf o)), Event.logError e] := by
    simp [zipPhase, hz, hzf]
  refine ⟨tr, rfl, ?_, ?_⟩
  · exact hzips _ (by rw [hzp]; simp)
  · exact hzips _ (by rw [hzp]; simp)

/-- The world of `envW` whose post-import filesystem makes `ZipProject`
raise (the project directory is not a directory at zip time). -/
def envC10 : Env :=
  { envW with zipView :=
      { isDir := fun _ => false, rglob := fun _ => [], resolve := fun p => p } }

/-- The invocation of `optsW` with `--zip-project`. -/
def optsC10 : Options := { optsW with zip_project := true }

/-- Witness for C10 at a concrete world. -/
theorem claim_C10_witness :
    ∃ tr, dragonkickMain envC10 optsC10 = MainResult.ret (some 0) tr
      ∧ Event.logError ("Failed to zip " ++ render (projectDirOf optsC10)) ∈ tr
      ∧ Event.logError ("p is not a valid project directory.") ∈ tr :=
  claim_C10 envC10 optsC10 [⟨true, ["bin", "ls"]⟩] []
    "p is not a valid project directory."
    ⟨rfl, by decide, Or.inl rfl, rfl, rfl⟩
    (fun _ _ => rfl) (by decide) rfl rfl rfl
